import Mathlib

/-!
Auto-performance quality controller of gpu-io.

A shallow embedding of `src/performance/autoProfile.ts` (preset table, quality
sequence, capability scorer) and of the auto-tuning loop of
`examples/auto-performance/index.js`, followed by the properties proved about them.

Conventions of the embedding:
* a JavaScript `number` that the program is given is a rational (`ℚ`): it is finite, and
  `NaN`, the infinities and the sign of zero are not represented among the inputs;
* where the source divides, or adds and subtracts readings of the clock (`updateFPS`,
  `translatePresetToConfig`, `PerformanceAdapter.shouldDowngrade`), every operation is rounded
  to the nearest double by `binary64`, and a quotient that can be infinite is a `JSNumber`;
  comparisons are exact, as they are on doubles;
* an optional or possibly absent property is an `Option` (`none` is `undefined`);
* a quality identifier is the string the source uses (`'alto'`, `'medio'`, `'bajo'`,
  `'minimo'`); `QUALITY_PRESET_MAPPING` gives the English names of the same four levels;
* a call that raises a `TypeError` returns `none`.
-/

set_option autoImplicit false

namespace AutoPerformance

/-! ## Double-precision arithmetic

The operators `+`, `-`, `*` and `/` of JavaScript work on IEEE 754 binary64 numbers: the
result is the double nearest to the exact result, ties going to the even significand; it is an
infinity when that double would exceed the largest one, or when a non-zero number is divided
by zero. -/

/-- Number of binary digits of `n`. The first argument bounds the recursion; any bound that
is at least the number of digits, such as `n` itself, gives all of them. -/
def bitLength : ℕ → ℕ → ℕ
  | 0, _ => 0
  | fuel + 1, n => if n = 0 then 0 else bitLength fuel (n / 2) + 1

/-- The double nearest to the positive fraction `n / d` (and `0` for `n = 0`): with `e` the
exponent of the binade of `n / d`, not below the least normal exponent `-1022`, the fraction
is rounded to a multiple of `2 ^ (e - 52)`, a tie going to the even multiple. The exponent is
not bounded above. -/
def binary64.magnitude (n d : ℕ) : ℚ :=
  if n = 0 then 0
  else
    let e0 : ℤ := (bitLength n n : ℤ) - (bitLength d d : ℤ)
    let atLeast : Bool :=
      if 0 ≤ e0 then decide (d * 2 ^ e0.toNat ≤ n) else decide (d ≤ n * 2 ^ (-e0).toNat)
    let e : ℤ := max (if atLeast then e0 else e0 - 1) (-1022)
    let shift : ℤ := 52 - e
    let scaledNum : ℕ := if 0 ≤ shift then n * 2 ^ shift.toNat else n
    let scaledDen : ℕ := if 0 ≤ shift then d else d * 2 ^ (-shift).toNat
    let q : ℕ := scaledNum / scaledDen
    let r : ℕ := scaledNum % scaledDen
    let m : ℕ :=
      if 2 * r < scaledDen then q
      else if scaledDen < 2 * r then q + 1
      else if q % 2 = 0 then q
      else q + 1
    if 0 ≤ shift then (m : ℚ) / (2 ^ shift.toNat : ℕ) else (m : ℚ) * (2 ^ (-shift).toNat : ℕ)

/-- Rounding of an exact result to the nearest double (round to nearest, ties to even,
subnormal range included). The exponent is not bounded above: a result beyond the largest
double is returned as a rational, and `JSNumber.ofExact` turns it into an infinity. -/
def binary64 (x : ℚ) : ℚ :=
  if x.num < 0 then - binary64.magnitude x.num.natAbs x.den
  else binary64.magnitude x.num.natAbs x.den

/-- Constant `Number.MAX_VALUE`: the largest finite double. -/
def MAX_VALUE : ℚ := (((2 ^ 53 - 1) * 2 ^ 971 : ℕ) : ℚ)

/-- Value of an arithmetic expression of JavaScript: a finite double, an infinity or `NaN`. -/
inductive JSNumber where
  | finite (value : ℚ)
  | posInfinity
  | negInfinity
  | nan
  deriving DecidableEq, Repr

/-- The double that an operation with exact result `x` returns: the nearest one, or the
infinity of the sign of `x` when the nearest one would exceed `MAX_VALUE`. -/
def JSNumber.ofExact (x : ℚ) : JSNumber :=
  if MAX_VALUE < binary64 x then JSNumber.posInfinity
  else if binary64 x < -MAX_VALUE then JSNumber.negInfinity
  else JSNumber.finite (binary64 x)

/-- Expression `a / b` on two numbers. -/
def JSNumber.div (a b : ℚ) : JSNumber :=
  if b = 0 then
    if a = 0 then JSNumber.nan
    else if 0 < a then JSNumber.posInfinity
    else JSNumber.negInfinity
  else JSNumber.ofExact (a / b)

/-- Expression `x * y`, the left operand being the value of an expression. -/
def JSNumber.mul (x : JSNumber) (y : ℚ) : JSNumber :=
  match x with
  | JSNumber.finite v => JSNumber.ofExact (v * y)
  | JSNumber.posInfinity =>
    if y = 0 then JSNumber.nan
    else if 0 < y then JSNumber.posInfinity
    else JSNumber.negInfinity
  | JSNumber.negInfinity =>
    if y = 0 then JSNumber.nan
    else if 0 < y then JSNumber.negInfinity
    else JSNumber.posInfinity
  | JSNumber.nan => JSNumber.nan

/-- Expression `a < x`, the right operand being the value of an expression. -/
def JSNumber.lessThan (a : ℚ) (x : JSNumber) : Bool :=
  match x with
  | JSNumber.finite v => decide (a < v)
  | JSNumber.posInfinity => true
  | JSNumber.negInfinity => false
  | JSNumber.nan => false

/-! ## Data model (`autoProfile.ts`, lines 7-143) -/

/-- Identifier of a quality preset. The TypeScript type is the union
`'alto' | 'medio' | 'bajo' | 'minimo'`; at run time any string can be passed. -/
abbrev QualityPresetId := String

/-- Record `QualityPreset` of `autoProfile.ts` (lines 7-19). -/
structure QualityPreset where
  id : QualityPresetId
  particleDensity : ℚ
  maxParticles : ℚ
  particleLifetime : ℚ
  numJacobiSteps : ℚ
  numRenderSteps : ℚ
  velocityScaleFactor : ℚ
  maxVelocity : ℚ
  trailLength : ℚ
  touchForceScale : ℚ
  frameBudget : ℚ
  deriving DecidableEq, Repr

/-- Shape of the constant `QUALITY_PRESET_MAPPING`: one entry per English name. -/
structure QualityPresetMapping where
  high : QualityPresetId
  medium : QualityPresetId
  low : QualityPresetId
  minimal : QualityPresetId
  deriving DecidableEq, Repr

/-- Constant `QUALITY_PRESET_MAPPING` (lines 26-31): English name to internal identifier. -/
def QUALITY_PRESET_MAPPING : QualityPresetMapping :=
  { high := "alto", medium := "medio", low := "bajo", minimal := "minimo" }

/-- Entry `QUALITY_PRESETS.alto` (lines 34-46). -/
def presetAlto : QualityPreset :=
  { id := "alto", particleDensity := 1 / 10, maxParticles := 100000, particleLifetime := 1000,
    numJacobiSteps := 3, numRenderSteps := 3, velocityScaleFactor := 8, maxVelocity := 30,
    trailLength := 18, touchForceScale := 2, frameBudget := 22 }

/-- Entry `QUALITY_PRESETS.medio` (lines 47-59). -/
def presetMedio : QualityPreset :=
  { id := "medio", particleDensity := 7 / 100, maxParticles := 70000, particleLifetime := 900,
    numJacobiSteps := 3, numRenderSteps := 2, velocityScaleFactor := 10, maxVelocity := 26,
    trailLength := 14, touchForceScale := 18 / 10, frameBudget := 28 }

/-- Entry `QUALITY_PRESETS.bajo` (lines 60-72). -/
def presetBajo : QualityPreset :=
  { id := "bajo", particleDensity := 45 / 1000, maxParticles := 45000, particleLifetime := 800,
    numJacobiSteps := 2, numRenderSteps := 1, velocityScaleFactor := 12, maxVelocity := 22,
    trailLength := 12, touchForceScale := 15 / 10, frameBudget := 32 }

/-- Entry `QUALITY_PRESETS.minimo` (lines 73-85). -/
def presetMinimo : QualityPreset :=
  { id := "minimo", particleDensity := 3 / 100, maxParticles := 25000, particleLifetime := 700,
    numJacobiSteps := 1, numRenderSteps := 1, velocityScaleFactor := 14, maxVelocity := 18,
    trailLength := 10, touchForceScale := 12 / 10, frameBudget := 36 }

/-- Table `QUALITY_PRESETS` (lines 33-86): the entry under each of its four own keys, and
`none` for every other key. (What the property access `QUALITY_PRESETS[id]` evaluates to,
inherited properties included, is `QUALITY_PRESETS.access` below.) -/
def QUALITY_PRESETS (id : QualityPresetId) : Option QualityPreset :=
  if id = "alto" then some presetAlto
  else if id = "medio" then some presetMedio
  else if id = "bajo" then some presetBajo
  else if id = "minimo" then some presetMinimo
  else none

/-- Constant `QUALITY_SEQUENCE` (line 88). -/
def QUALITY_SEQUENCE : List QualityPresetId := ["alto", "medio", "bajo", "minimo"]

/-- The two values of the `direction` parameter of `getNextQualityId`. -/
inductive Direction where
  | up
  | down
  deriving DecidableEq, Repr

/-- Method `Array.prototype.indexOf` on an array of strings, searching from position `i`:
the position of the first element strictly equal to `x`, or `-1`. -/
def indexOfFrom : List QualityPresetId → QualityPresetId → Int → Int
  | [], _, _ => -1
  | y :: ys, x, i => if y = x then i else indexOfFrom ys x (i + 1)

/-- Call `xs.indexOf(x)`. -/
def indexOf (xs : List QualityPresetId) (x : QualityPresetId) : Int :=
  indexOfFrom xs x 0

/-- Function `getNextQualityId` (lines 148-167). The argument `direction` is `none` when the
caller omits it, in which case the default `'down'` applies; the result `none` is `null`. -/
def getNextQualityId (id : QualityPresetId) (direction : Option Direction) :
    Option QualityPresetId :=
  let direction := direction.getD Direction.down
  let index := indexOf QUALITY_SEQUENCE id
  if index = -1 then
    none
  else if direction = Direction.down then
    if index ≥ (QUALITY_SEQUENCE.length : Int) - 1 then
      none
    else
      QUALITY_SEQUENCE[(index + 1).toNat]?
  else
    if index ≤ 0 then
      none
    else
      QUALITY_SEQUENCE[(index - 1).toNat]?

/-! ## Device capabilities and browser environment (`autoProfile.ts`, lines 114-143) -/

/-- Interface `DeviceCapabilities` (lines 115-124). Every property may be absent: the
JavaScript tests call the scorer with the empty object. -/
structure DeviceCapabilities where
  supportsWebGL2 : Option Bool
  deviceMemory : Option ℚ
  hardwareConcurrency : Option ℚ
  devicePixelRatio : Option ℚ
  screenWidth : Option ℚ
  screenHeight : Option ℚ
  prefersReducedMotion : Option Bool
  saveData : Option Bool
  deriving DecidableEq, Repr

/-- What the call `window.matchMedia('(prefers-reduced-motion: reduce)')` does: it returns a
media query list whose property `matches` is `isMatch`, or it raises. -/
inductive MatchMediaOutcome where
  | result (isMatch : Bool)
  | throws
  deriving DecidableEq, Repr

/-- Property `window` of `BrowserEnvironment` (lines 128-133). -/
structure Window where
  matchMedia : Option MatchMediaOutcome
  devicePixelRatio : Option ℚ
  innerWidth : Option ℚ
  innerHeight : Option ℚ
  deriving DecidableEq, Repr

/-- Network-information object (`navigator.connection` and its vendor variants). -/
structure Connection where
  saveData : Option Bool
  deriving DecidableEq, Repr

/-- Property `navigator` of `BrowserEnvironment` (lines 134-142). -/
structure Navigator where
  deviceMemory : Option ℚ
  hardwareConcurrency : Option ℚ
  connection : Option Connection
  mozConnection : Option Connection
  webkitConnection : Option Connection
  deriving DecidableEq, Repr

/-- Interface `BrowserEnvironment` (lines 127-143). The ambient object `globalThis`, which the
source falls back to, is given the same shape. -/
structure BrowserEnvironment where
  window : Option Window
  navigator : Option Navigator
  deriving DecidableEq, Repr

/-- Truthiness of a possibly absent boolean: `undefined` is falsy. -/
def truthy (b : Option Bool) : Bool :=
  b.getD false

/-- Expression `x || d` on a possibly absent number: `undefined` and `0` are falsy. -/
def orNumber (x : Option ℚ) (d : ℚ) : ℚ :=
  match x with
  | some v => if v = 0 then d else v
  | none => d

/-! ## Capability scorer (`autoProfile.ts`, lines 169-268) -/

/-- Function `prefersReducedMotion` (lines 172-184); `globalThis` is the ambient global
object. -/
def prefersReducedMotion (env : Option BrowserEnvironment) (globalThis : BrowserEnvironment) :
    Bool :=
  let window := (env.bind fun e => e.window) <|> globalThis.window
  match window with
  | none => false
  | some w =>
    match w.matchMedia with
    | none => false
    | some MatchMediaOutcome.throws => false
    | some (MatchMediaOutcome.result isMatch) => isMatch

/-- Local `navigator` of `detectQualityProfile` (line 199). -/
def detectQualityProfile.navigator (env : Option BrowserEnvironment)
    (globalThis : BrowserEnvironment) : Option Navigator :=
  (env.bind fun e => e.navigator) <|> globalThis.navigator

/-- Local `connection` of `detectQualityProfile` (line 200). -/
def detectQualityProfile.connection (env : Option BrowserEnvironment)
    (globalThis : BrowserEnvironment) : Option Connection :=
  let navigator := detectQualityProfile.navigator env globalThis
  (navigator.bind fun n => n.connection) <|> (navigator.bind fun n => n.mozConnection)
    <|> (navigator.bind fun n => n.webkitConnection)

/-- Condition of line 194: `capabilities.prefersReducedMotion ?? prefersReducedMotion(env)`. -/
def detectQualityProfile.reducedMotion (capabilities : DeviceCapabilities)
    (env : Option BrowserEnvironment) (globalThis : BrowserEnvironment) : Bool :=
  match capabilities.prefersReducedMotion with
  | some b => b
  | none => prefersReducedMotion env globalThis

/-- Condition of line 202: `capabilities.saveData ?? (connection && connection.saveData)`,
taken for its truthiness. -/
def detectQualityProfile.dataSaver (capabilities : DeviceCapabilities)
    (env : Option BrowserEnvironment) (globalThis : BrowserEnvironment) : Bool :=
  match capabilities.saveData with
  | some b => b
  | none => truthy ((detectQualityProfile.connection env globalThis).bind fun c => c.saveData)

/-- Local `deviceMemory` of `detectQualityProfile` (line 207). -/
def detectQualityProfile.deviceMemory (capabilities : DeviceCapabilities)
    (env : Option BrowserEnvironment) (globalThis : BrowserEnvironment) : ℚ :=
  match capabilities.deviceMemory with
  | some m => m
  | none => orNumber ((detectQualityProfile.navigator env globalThis).bind fun n => n.deviceMemory) 0

/-- Local `cores` of `detectQualityProfile` (line 208). -/
def detectQualityProfile.cores (capabilities : DeviceCapabilities)
    (env : Option BrowserEnvironment) (globalThis : BrowserEnvironment) : ℚ :=
  match capabilities.hardwareConcurrency with
  | some c => c
  | none =>
    orNumber ((detectQualityProfile.navigator env globalThis).bind fun n => n.hardwareConcurrency) 0

/-- Local `pixelRatio` of `detectQualityProfile` (line 209): only the injected environment is
consulted. -/
def detectQualityProfile.pixelRatio (capabilities : DeviceCapabilities)
    (env : Option BrowserEnvironment) : ℚ :=
  match capabilities.devicePixelRatio with
  | some r => r
  | none => orNumber ((env.bind fun e => e.window).bind fun w => w.devicePixelRatio) 1

/-- Local `screenWidth` of `detectQualityProfile` (line 210). -/
def detectQualityProfile.screenWidth (capabilities : DeviceCapabilities)
    (env : Option BrowserEnvironment) : ℚ :=
  match capabilities.screenWidth with
  | some w => w
  | none => orNumber ((env.bind fun e => e.window).bind fun w => w.innerWidth) 0

/-- Local `screenHeight` of `detectQualityProfile` (line 211). -/
def detectQualityProfile.screenHeight (capabilities : DeviceCapabilities)
    (env : Option BrowserEnvironment) : ℚ :=
  match capabilities.screenHeight with
  | some h => h
  | none => orNumber ((env.bind fun e => e.window).bind fun w => w.innerHeight) 0

/-- Accumulation of `score` in `detectQualityProfile` (lines 214-258), one rebinding per
statement that updates it. -/
def detectQualityProfile.score (supportsWebGL2 : Option Bool)
    (deviceMemory cores pixelRatio screenArea : ℚ) : Int :=
  let score : Int := 0
  let score := if truthy supportsWebGL2 then score + 1 else score - 2
  let score :=
    if deviceMemory ≥ 8 then score + 2
    else if deviceMemory ≥ 4 then score + 1
    else if deviceMemory > 0 then score - 1
    else score - 1
  let score :=
    if cores ≥ 8 then score + 2
    else if cores ≥ 4 then score + 1
    else if cores > 0 then score - 1
    else score - 1
  let score := if pixelRatio > 5 / 2 then score - 1 else score
  let score := if screenArea > 2500000 then score - 1 else score
  let score := if deviceMemory ≠ 0 ∧ deviceMemory ≤ 2 then score - 1 else score
  score

/-- Function `detectQualityProfile` (lines 189-268); `env` is `none` when the caller omits
it, and `globalThis` is the ambient global object. The product `screenWidth * screenHeight`
is the exact one: the source rounds it to a double, which leaves its comparison with
`2500000` as it is when the two sides are whole numbers. -/
def detectQualityProfile (capabilities : DeviceCapabilities) (env : Option BrowserEnvironment)
    (globalThis : BrowserEnvironment) : QualityPresetId :=
  if detectQualityProfile.reducedMotion capabilities env globalThis then
    "minimo"
  else if detectQualityProfile.dataSaver capabilities env globalThis then
    "bajo"
  else
    let deviceMemory := detectQualityProfile.deviceMemory capabilities env globalThis
    let cores := detectQualityProfile.cores capabilities env globalThis
    let pixelRatio := detectQualityProfile.pixelRatio capabilities env
    let screenWidth := detectQualityProfile.screenWidth capabilities env
    let screenHeight := detectQualityProfile.screenHeight capabilities env
    let screenArea := screenWidth * screenHeight
    let score :=
      detectQualityProfile.score capabilities.supportsWebGL2 deviceMemory cores pixelRatio
        screenArea
    if score ≤ -1 then
      "bajo"
    else if score ≤ 1 then
      "medio"
    else
      "alto"

/-- Environment that supplies no signal at all. -/
def emptyEnvironment : BrowserEnvironment :=
  { window := none, navigator := none }

/-- The empty capabilities object. -/
def emptyCapabilities : DeviceCapabilities :=
  { supportsWebGL2 := none, deviceMemory := none, hardwareConcurrency := none,
    devicePixelRatio := none, screenWidth := none, screenHeight := none,
    prefersReducedMotion := none, saveData := none }

/-! ## Auto-tuning loop (`examples/auto-performance/index.js`, lines 18-137) -/

/-- Mutable variables of the example that the auto-tuning loop reads and writes (lines 18-35),
with `switchLog` recording, in order, the `console.log` line of every quality switch that
`updateQualitySettings` carries out (old identifier, new identifier). -/
structure ControllerState where
  autoTuning : Bool
  currentQuality : QualityPresetId
  currentPreset : Option QualityPreset
  frameCount : ℕ
  lastTime : ℚ
  fps : ℚ
  fpsHistory : List ℚ
  switchLog : List (QualityPresetId × QualityPresetId)
  deriving DecidableEq, Repr

/-- Constant `FPS_HISTORY_LENGTH` (line 35). -/
def FPS_HISTORY_LENGTH : ℕ := 60

/-- Function `updateQualitySettings` (lines 88-112), restricted to the controller variables:
the resizing and resetting of the particle layers belongs to the renderer. The call to
`calcNumParticles` reads `currentPreset.particleDensity` and so raises when the table has no
preset for the new identifier. (The identifiers that reach this function are those of the
quality sequence and of the example's menu; none is an inherited property name, for which
the lookup would give a value that is not a preset.) -/
def updateQualitySettings (s : ControllerState) (newQuality : QualityPresetId) :
    Option ControllerState :=
  if newQuality = s.currentQuality then
    some s
  else
    let s :=
      { s with
        switchLog := s.switchLog ++ [(s.currentQuality, newQuality)]
        currentQuality := newQuality
        currentPreset := QUALITY_PRESETS newQuality }
    match s.currentPreset with
    | none => none
    | some _ => some s

/-- Local `targetFPS` of `checkPerformanceAndAdjust` (line 121). -/
def checkPerformanceAndAdjust.targetFPS (currentPreset : QualityPreset) : ℚ :=
  currentPreset.frameBudget

/-- Test `if (nextQuality)` (lines 126 and 133): `null` and the empty string are falsy. -/
def checkPerformanceAndAdjust.isTruthy (nextQuality : Option QualityPresetId) : Bool :=
  match nextQuality with
  | none => false
  | some q => q ≠ ""

/-- Function `checkPerformanceAndAdjust` (lines 115-137). Reading `frameBudget` of an
undefined `currentPreset` raises. -/
def checkPerformanceAndAdjust (s : ControllerState) : Option ControllerState :=
  if !s.autoTuning then
    some s
  else if s.fpsHistory.length < FPS_HISTORY_LENGTH then
    some s
  else
    let avgFPS := s.fps
    match s.currentPreset with
    | none => none
    | some currentPreset =>
      let targetFPS := checkPerformanceAndAdjust.targetFPS currentPreset
      if avgFPS < targetFPS - 5 then
        let nextQuality := getNextQualityId s.currentQuality (some Direction.down)
        if checkPerformanceAndAdjust.isTruthy nextQuality then
          updateQualitySettings s (nextQuality.getD "")
        else
          some s
      else if avgFPS > targetFPS + 10 then
        let nextQuality := getNextQualityId s.currentQuality (some Direction.up)
        if checkPerformanceAndAdjust.isTruthy nextQuality then
          updateQualitySettings s (nextQuality.getD "")
        else
          some s
      else
        some s

/-- Function `updateFPS` (lines 56-82), with the reading of `performance.now()` as the
argument `now`. The difference, the quotient, every addition of the `reduce` and the final
division are rounded to doubles. A quotient or a sum beyond `MAX_VALUE`, which would take a
delta below `1000 / MAX_VALUE` (about `5.6e-306` ms), is not represented. The refresh of the
on-screen text (lines 74-81) writes none of the controller variables and is left out. -/
def updateFPS (s : ControllerState) (now : ℚ) : ControllerState :=
  let delta := binary64 (now - s.lastTime)
  let s := { s with lastTime := now }
  let s :=
    if delta > 0 then
      let currentFPS := binary64 (1000 / delta)
      let fpsHistory := s.fpsHistory ++ [currentFPS]
      let fpsHistory :=
        if fpsHistory.length > FPS_HISTORY_LENGTH then fpsHistory.tail else fpsHistory
      { s with
        fpsHistory := fpsHistory
        fps := binary64 (fpsHistory.foldl (fun a b => binary64 (a + b)) 0 / fpsHistory.length) }
    else
      s
  { s with frameCount := s.frameCount + 1 }

/-- Values of the controller variables when `main` starts (lines 18-35), `now` being the
reading of `performance.now()` on line 32. -/
def initialState (now : ℚ) : ControllerState :=
  { autoTuning := true, currentQuality := "high", currentPreset := QUALITY_PRESETS "high",
    frameCount := 0, lastTime := now, fps := 60, fpsHistory := [], switchLog := [] }

/-- Controller state with the given level, preset and smoothed FPS, auto-tuning on and a
full history of `FPS_HISTORY_LENGTH` samples all equal to the smoothed FPS. -/
def warmState (id : QualityPresetId) (preset : Option QualityPreset) (fps : ℚ) :
    ControllerState :=
  { autoTuning := true, currentQuality := id, currentPreset := preset, frameCount := 60,
    lastTime := 0, fps := fps, fpsHistory := List.replicate FPS_HISTORY_LENGTH fps,
    switchLog := [] }

/-- Capabilities of the test "high-end device" (`performanceAutoProfile.js`, lines 124-131). -/
def highEndCapabilities : DeviceCapabilities :=
  { emptyCapabilities with
    deviceMemory := some 16, hardwareConcurrency := some 8, supportsWebGL2 := some true,
    devicePixelRatio := some 1, screenWidth := some 1920, screenHeight := some 1080 }

/-- Environment whose media query reports reduced motion and whose connection reports the
data saver. -/
def thriftyEnvironment : BrowserEnvironment :=
  { window := some { matchMedia := some (MatchMediaOutcome.result true),
                     devicePixelRatio := none, innerWidth := none, innerHeight := none },
    navigator := some { deviceMemory := none, hardwareConcurrency := none,
                        connection := some { saveData := some true },
                        mozConnection := none, webkitConnection := none } }

/-! ## Configuration translator (`autoProfile.ts`, lines 356-373) -/

/-- Result type of `translatePresetToConfig` (lines 359-365). -/
structure TranslatedConfig where
  particleCount : ℚ
  jacobiIterations : ℚ
  renderPasses : ℚ
  velocityScale : ℚ
  trailFadeRate : JSNumber
  deriving DecidableEq, Repr

/-- Function `translatePresetToConfig` (lines 359-373). Four properties are copied; the fifth
is the quotient `1 / preset.trailLength`, a double, or an infinity for a `trailLength` of zero
or too small. -/
def translatePresetToConfig (preset : QualityPreset) : TranslatedConfig :=
  { particleCount := preset.maxParticles
    jacobiIterations := preset.numJacobiSteps
    renderPasses := preset.numRenderSteps
    velocityScale := preset.velocityScaleFactor
    trailFadeRate := JSNumber.div 1 preset.trailLength }

/-! ## Performance adapter (`PerformanceAdapter.ts`) -/

/-- Interface `PerformanceConfig` (lines 18-26): every property is optional. -/
structure PerformanceConfig where
  particleCount : Option ℚ
  jacobiIterations : Option ℚ
  renderPasses : Option ℚ
  velocityScale : Option ℚ
  trailFadeRate : Option JSNumber
  maxVelocity : Option ℚ
  touchForceScale : Option ℚ
  deriving DecidableEq, Repr

/-- A translated configuration seen as a `PerformanceConfig`: the five properties it has. -/
def TranslatedConfig.toPerformanceConfig (c : TranslatedConfig) : PerformanceConfig :=
  { particleCount := some c.particleCount
    jacobiIterations := some c.jacobiIterations
    renderPasses := some c.renderPasses
    velocityScale := some c.velocityScale
    trailFadeRate := some c.trailFadeRate
    maxVelocity := none
    touchForceScale := none }

/-- Mutable state of a `PerformanceAdapter` (lines 32-36): its private fields, and the
property `_performanceConfig` it stores on the composer (line 155). -/
structure PerformanceAdapter where
  _currentPreset : Option QualityPreset
  _originalConfig : Option PerformanceConfig
  _debugLogging : Bool
  _performanceConfig : Option PerformanceConfig
  deriving DecidableEq, Repr

/-- Method `PerformanceAdapter.shouldDowngrade` (lines 171-176): the returned boolean, paired
with the state of the adapter after the call. The quotient and the product are those of
double arithmetic (`1000 / 0` is `Infinity`), and the literal `0.8` is the double nearest to
`8 / 10`. -/
def PerformanceAdapter.shouldDowngrade (self : PerformanceAdapter) (currentFPS : ℚ) :
    Bool × PerformanceAdapter :=
  match self._currentPreset with
  | none => (false, self)
  | some currentPreset =>
    let targetFPS := JSNumber.div 1000 currentPreset.frameBudget
    (JSNumber.lessThan currentFPS (targetFPS.mul (binary64 (8 / 10))), self)

/-! ## Property access on the preset table -/

/-- Names of the properties that an object literal such as `QUALITY_PRESETS` inherits from
`Object.prototype`; each of them is a function or an object, hence truthy. -/
def objectPrototypeProperties : List String :=
  ["constructor", "hasOwnProperty", "isPrototypeOf", "propertyIsEnumerable", "toLocaleString",
    "toString", "valueOf", "__proto__", "__defineGetter__", "__defineSetter__",
    "__lookupGetter__", "__lookupSetter__"]

/-- Value of the expression `QUALITY_PRESETS[id]`. -/
inductive TableValue where
  | preset (p : QualityPreset)
  | inherited (name : String)
  | undefined
  deriving DecidableEq, Repr

/-- Expression `QUALITY_PRESETS[id]` for a string `id`: an own entry, else a property
inherited from `Object.prototype`, else `undefined`. -/
def QUALITY_PRESETS.access (id : String) : TableValue :=
  match QUALITY_PRESETS id with
  | some p => TableValue.preset p
  | none =>
    if id ∈ objectPrototypeProperties then TableValue.inherited id else TableValue.undefined

/-- Truthiness of a value read from the table: only `undefined` is falsy. -/
def TableValue.isTruthy : TableValue → Bool
  | TableValue.preset _ => true
  | TableValue.inherited _ => true
  | TableValue.undefined => false

/-! ## Fluid background (`autoProfile.ts`, lines 270-354) -/

/-- The properties of `AutoProfileOptions` (lines 91-112) that `createFluidBackground`
reads; `onRequestDowngrade` says whether the callback is provided. -/
structure AutoProfileOptions where
  profileId : Option String
  onRequestDowngrade : Bool
  deviceCapabilities : Option DeviceCapabilities
  deriving DecidableEq, Repr

/-- Argument `gpuioAPI` of `createFluidBackground`: `isWebGL2Supported` is `none` when the
property is not a function, and otherwise what the call returns. -/
structure GpuioAPI where
  isWebGL2Supported : Option Bool
  deriving DecidableEq, Repr

/-- How a media query list accepts a change listener (lines 309-315): through
`addEventListener`, through the older `addListener`, or not at all. -/
inductive ListenerSupport where
  | addEventListener
  | addListener
  | unsupported
  deriving DecidableEq, Repr

/-- Listener methods of the ambient objects: those of the media query list, and whether
`connection.addEventListener` is a function. An object that has a method to add a listener
has the matching method to remove it (`removeEventListener`, `removeListener`). -/
structure ListenerEnvironment where
  mediaQuery : ListenerSupport
  connection : Bool
  deriving DecidableEq, Repr

/-- A listener registered by `createFluidBackground`; as an element of `cleanupCallbacks` it
stands for the callback that removes that listener. -/
inductive Subscription where
  | mediaQueryEventListener
  | mediaQueryListener
  | connectionEventListener
  deriving DecidableEq, Repr

/-- Handle returned by `createFluidBackground` (lines 347-353), with the array
`cleanupCallbacks` that its `dispose` closes over. -/
structure FluidBackground where
  currentProfile : QualityPresetId
  cleanupCallbacks : List Subscription
  deriving DecidableEq, Repr

/-- What a call of `createFluidBackground` does: the handle it returns, the listeners it
registers, in order, and the arguments of its calls of `onRequestDowngrade`. -/
structure FluidBackgroundCreation where
  handle : FluidBackground
  subscribed : List Subscription
  downgradeRequests : List QualityPresetId
  deriving DecidableEq, Repr

/-- Local `capabilities` of `createFluidBackground` (lines 281-283). -/
def createFluidBackground.capabilities (gpuioAPI : GpuioAPI) (options : AutoProfileOptions) :
    DeviceCapabilities :=
  options.deviceCapabilities.getD
    { emptyCapabilities with supportsWebGL2 := some (gpuioAPI.isWebGL2Supported.getD true) }

/-- Local `selectedProfileId` of `createFluidBackground` (lines 286-288); an absent
`profileId` reads the property `'undefined'` of the table, which does not exist. -/
def createFluidBackground.selectedProfileId (gpuioAPI : GpuioAPI)
    (options : AutoProfileOptions) (globalThis : BrowserEnvironment) : QualityPresetId :=
  match options.profileId with
  | some profileId =>
    if (QUALITY_PRESETS.access profileId).isTruthy then profileId
    else detectQualityProfile (createFluidBackground.capabilities gpuioAPI options) none
      globalThis
  | none =>
    detectQualityProfile (createFluidBackground.capabilities gpuioAPI options) none globalThis

/-- Listener that `setupMediaListener` registers on the media query list (lines 303-326),
`reduceMotionQuery` being `none` when there is no `window.matchMedia`. -/
def createFluidBackground.mediaSubscriptions (reduceMotionQuery : Option MatchMediaOutcome)
    (listeners : ListenerEnvironment) : List Subscription :=
  match reduceMotionQuery with
  | some _ =>
    match listeners.mediaQuery with
    | ListenerSupport.addEventListener => [Subscription.mediaQueryEventListener]
    | ListenerSupport.addListener => [Subscription.mediaQueryListener]
    | ListenerSupport.unsupported => []
  | none => []

/-- Calls of `onRequestDowngrade` made by the first `handleConnectionChange()`
(lines 332-340). -/
def createFluidBackground.downgradeRequests (options : AutoProfileOptions)
    (selectedProfileId : QualityPresetId) (connection : Option Connection) :
    List QualityPresetId :=
  match connection with
  | some c =>
    if truthy c.saveData ∧ options.onRequestDowngrade = true then
      [if selectedProfileId = "minimo" then "minimo" else "bajo"]
    else []
  | none => []

/-- Listener registered on the connection (lines 339-345). -/
def createFluidBackground.connectionSubscriptions (connection : Option Connection)
    (listeners : ListenerEnvironment) : List Subscription :=
  match connection with
  | some _ => if listeners.connection then [Subscription.connectionEventListener] else []
  | none => []

/-- Function `createFluidBackground` (lines 274-354); `globalThis` is the ambient global
object. The call of `window.matchMedia` on line 320 is not guarded, so the function raises
when that call does. The connection is read from `globalThis.navigator` by the expression
that `detectQualityProfile` uses when no environment is injected (lines 329-330). -/
def createFluidBackground (gpuioAPI : GpuioAPI) (options : AutoProfileOptions)
    (globalThis : BrowserEnvironment) (listeners : ListenerEnvironment) :
    Option FluidBackgroundCreation :=
  let selectedProfileId := createFluidBackground.selectedProfileId gpuioAPI options globalThis
  let reduceMotionQuery := globalThis.window.bind fun w => w.matchMedia
  if reduceMotionQuery = some MatchMediaOutcome.throws then
    none
  else
    let mediaSubscriptions :=
      createFluidBackground.mediaSubscriptions reduceMotionQuery listeners
    let connection := detectQualityProfile.connection none globalThis
    let downgradeRequests :=
      createFluidBackground.downgradeRequests options selectedProfileId connection
    let connectionSubscriptions :=
      createFluidBackground.connectionSubscriptions connection listeners
    some
      { handle :=
          { currentProfile := selectedProfileId
            cleanupCallbacks := mediaSubscriptions ++ connectionSubscriptions }
        subscribed := mediaSubscriptions ++ connectionSubscriptions
        downgradeRequests := downgradeRequests }

/-- Method `dispose` of the handle (lines 348-351): the removals it carries out, in order,
and the handle afterwards, whose array of callbacks is emptied. -/
def FluidBackground.dispose (self : FluidBackground) : List Subscription × FluidBackground :=
  (self.cleanupCallbacks, { self with cleanupCallbacks := [] })

/-! ## Applying a preset (`PerformanceAdapter.ts`, lines 38-166) -/

/-- How a call of `applyQualityPreset` ends: it returns with the adapter in the given state,
or it returns having stored, as current preset, the inherited property `name` of the table
object, which is not a preset (a state that `PerformanceAdapter` does not represent). -/
inductive ApplyOutcome where
  | returned (adapter : PerformanceAdapter)
  | foreignPreset (name : String)
  deriving DecidableEq, Repr

/-- Method `PerformanceAdapter.applyQualityPreset` (lines 51-84), on the state of the
adapter; the debug log and the notification of `onPerformanceUpdate` write none of it. -/
def PerformanceAdapter.applyQualityPreset (self : PerformanceAdapter)
    (presetId : QualityPresetId) : ApplyOutcome :=
  match QUALITY_PRESETS.access presetId with
  | TableValue.undefined => ApplyOutcome.returned self
  | TableValue.inherited name => ApplyOutcome.foreignPreset name
  | TableValue.preset preset =>
    ApplyOutcome.returned
      { self with
        _currentPreset := some preset
        _performanceConfig := some (translatePresetToConfig preset).toPerformanceConfig }

/-- Method `PerformanceAdapter.getCurrentPreset` (lines 109-111). -/
def PerformanceAdapter.getCurrentPreset (self : PerformanceAdapter) : Option QualityPreset :=
  self._currentPreset

/-- Method `PerformanceAdapter.getPerformanceConfig` (lines 164-166). -/
def PerformanceAdapter.getPerformanceConfig (self : PerformanceAdapter) :
    Option PerformanceConfig :=
  self._performanceConfig

/-- State of an adapter when its constructor returns (lines 38-46): no preset applied, the
default configuration of `_captureCurrentConfig` (lines 130-142) kept as original, and nothing
stored on the composer yet. -/
def PerformanceAdapter.constructed : PerformanceAdapter :=
  { _currentPreset := none
    _originalConfig := some
      { particleCount := some 50000, jacobiIterations := some 2, renderPasses := some 2,
        velocityScale := some 10, trailFadeRate := some (JSNumber.finite (binary64 (1 / 10))),
        maxVelocity := some 25,
        touchForceScale := some (15 / 10) }
    _debugLogging := false
    _performanceConfig := none }

/-! ## Statements of the specification, written from its words -/

/-- Score of the specification (section 4.1, step 3): the sum of the six signal
contributions, as a function of the signals. -/
def specScore (supportsWebGL2 : Bool) (memory cores pixelRatio screenWidth screenHeight : ℚ) :
    Int :=
  (if supportsWebGL2 then 1 else -2)
    + (if memory ≥ 8 then 2 else if memory ≥ 4 then 1 else -1)
    + (if cores ≥ 8 then 2 else if cores ≥ 4 then 1 else -1)
    - (if pixelRatio > 5 / 2 then 1 else 0)
    - (if screenWidth * screenHeight > 2500000 then 1 else 0)
    - (if 0 < memory ∧ memory ≤ 2 then 1 else 0)

/-- Level of the specification for a score (section 4.1, step 4): Low up to `-1`, Medium
above `-1` and up to `1`, High above `1`. -/
def specLevel (s : Int) : QualityPresetId :=
  if s ≤ -1 then QUALITY_PRESET_MAPPING.low
  else if -1 < s ∧ s ≤ 1 then QUALITY_PRESET_MAPPING.medium
  else QUALITY_PRESET_MAPPING.high

/-- State of the controller after a switch to level `q`: the level and its preset are
replaced, the switch is logged, and nothing else changes. -/
def switchedTo (s : ControllerState) (q : QualityPresetId) : ControllerState :=
  { s with
    currentQuality := q
    currentPreset := QUALITY_PRESETS q
    switchLog := s.switchLog ++ [(s.currentQuality, q)] }

/-- Position of a level in the quality sequence (`-1` for an unknown identifier). -/
def levelIndex (q : QualityPresetId) : Int :=
  indexOf QUALITY_SEQUENCE q

/-- Successive calls of `updateFPS`, one per timestamp, in order. -/
def runFrames (s : ControllerState) (nows : List ℚ) : ControllerState :=
  nows.foldl updateFPS s

/-- Instantaneous FPS samples, `1000 / delta`, of the frames with a positive delta among the
timestamps `nows`, in arrival order, `last` being the timestamp before the first of them; the
delta and the quotient are doubles. -/
def samplesFrom (last : ℚ) : List ℚ → List ℚ
  | [] => []
  | now :: rest =>
    (if binary64 (now - last) > 0 then [binary64 (1000 / binary64 (now - last))] else [])
      ++ samplesFrom now rest

/-- The `n` most recent elements of a list, in order (all of them when there are fewer). -/
def mostRecent (n : ℕ) (xs : List ℚ) : List ℚ :=
  xs.drop (xs.length - n)

/-- Timestamps of `n` frames at the constant interval `d` after the timestamp `t0`. -/
def constantFrames (t0 d : ℚ) (n : ℕ) : List ℚ :=
  (List.range n).map fun i => t0 + ((i : ℚ) + 1) * d

/-- Timestamps `1 * d`, `2 * d`, ..., `n * d` as double arithmetic computes the products. -/
def doubleFrames (d : ℚ) (n : ℕ) : List ℚ :=
  (List.range n).map fun i => binary64 (((i : ℚ) + 1) * d)

/-- Arithmetic mean of a list of samples. -/
def mean (xs : List ℚ) : ℚ :=
  xs.sum / xs.length

/-- Mean of a list of samples in double arithmetic: the samples are added one by one from the
first, and the sum is divided by their number, every operation being rounded. -/
def roundedMean (xs : List ℚ) : ℚ :=
  binary64 (xs.foldl (fun a b => binary64 (a + b)) 0 / xs.length)

/-- Target FPS of the specification for a preset (section 4.4): `1000 / frameBudget`. -/
def specTargetFPS (preset : QualityPreset) : ℚ :=
  1000 / preset.frameBudget

/-- A number that is a positive integer. -/
def isPositiveInteger (x : ℚ) : Prop :=
  ∃ n : ℕ, 0 < n ∧ x = (n : ℚ)

/-- What the core count adds to the score (lines 235-243). -/
def coresContribution (cores : ℚ) : Int :=
  if cores ≥ 8 then 2 else if cores ≥ 4 then 1 else -1

/-- What the device memory adds to the score: its bracket (lines 224-232) less the low-memory
penalty (lines 256-258). -/
def memoryContribution (memory : ℚ) : Int :=
  (if memory ≥ 8 then 2 else if memory ≥ 4 then 1 else -1)
    - (if memory ≠ 0 ∧ memory ≤ 2 then 1 else 0)

/-- What the signals other than memory and cores add to the score (lines 217-221 and
246-253). -/
def otherContribution (supportsWebGL2 : Option Bool) (pixelRatio screenArea : ℚ) : Int :=
  (if truthy supportsWebGL2 then 1 else -2)
    - (if pixelRatio > 5 / 2 then 1 else 0)
    - (if screenArea > 2500000 then 1 else 0)

/-- Level for a score, as the last statements of `detectQualityProfile` map it
(lines 261-267). -/
def levelOfScore (score : Int) : QualityPresetId :=
  if score ≤ -1 then "bajo" else if score ≤ 1 then "medio" else "alto"

/-- Result of `n` successive evaluations of the controller, the monitor variables being
left as they are in between (`none` when one of them raises). -/
def evaluateN : ℕ → ControllerState → Option ControllerState
  | 0, s => some s
  | n + 1, s => (evaluateN n s).bind checkPerformanceAndAdjust

/-- Frame budget of the preset of the level at position `i` of the quality sequence. -/
def frameBudgetAt (i : ℕ) : ℚ :=
  match i with
  | 0 => 22
  | 1 => 28
  | 2 => 32
  | _ => 36

/-- Position in the quality sequence after one evaluation at position `i` with smoothed FPS
`fps`, monitor warmed up and auto-tuning on. -/
def nextIndex (fps : ℚ) (i : ℕ) : ℕ :=
  if fps < frameBudgetAt i - 5 ∧ i < 3 then i + 1
  else if fps > frameBudgetAt i + 10 ∧ 0 < i then i - 1
  else i

/-- The controller is switched on and warmed up at position `i` of the quality sequence, with
the preset of that level loaded. -/
def AtIndex (s : ControllerState) (i : ℕ) : Prop :=
  s.autoTuning = true ∧ FPS_HISTORY_LENGTH ≤ s.fpsHistory.length ∧
    QUALITY_SEQUENCE[i]? = some s.currentQuality ∧
    s.currentPreset = QUALITY_PRESETS s.currentQuality

/-! ## Theorems -/

/-- The score accumulated by the source is the score of the specification whenever the
device memory is non-negative. -/
theorem score_eq_specScore (w : Option Bool) (m c r sw sh : ℚ) (hm : 0 ≤ m) :
    detectQualityProfile.score w m c r (sw * sh) = specScore (truthy w) m c r sw sh := by
  cases hw : truthy w <;>
    by_cases h8 : m ≥ 8 <;> by_cases h4 : m ≥ 4 <;> (try (exfalso; linarith)) <;>
    by_cases h0 : m > 0 <;> (try (exfalso; linarith)) <;>
    by_cases h2 : m ≤ 2 <;> (try (exfalso; linarith)) <;>
    by_cases hne : m = 0 <;> (try (exfalso; linarith)) <;>
    (try (exfalso; exact hne (le_antisymm (not_lt.mp h0) hm))) <;>
    by_cases c8 : c ≥ 8 <;> by_cases c4 : c ≥ 4 <;> (try (exfalso; linarith)) <;>
    by_cases hr : r > 5 / 2 <;> by_cases ha : sw * sh > 2500000 <;>
    simp only [detectQualityProfile.score, specScore, hw, h8, h4, h0, h2, hne, c8, c4, hr, ha,
      if_true, if_false, ite_self, Bool.false_eq_true, ne_eq, not_true_eq_false,
      not_false_eq_true, and_self, and_false, false_and, and_true, true_and] <;>
    rfl

/-- The two spellings of the score-to-level mapping agree. -/
theorem level_eq_specLevel (s : Int) :
    (if s ≤ -1 then "bajo" else if s ≤ 1 then "medio" else "alto") = specLevel s := by
  unfold specLevel QUALITY_PRESET_MAPPING
  by_cases h1 : s ≤ -1
  · simp [h1]
  · by_cases h2 : s ≤ 1
    · have h3 : -1 < s := by omega
      simp [h1, h2, h3]
    · simp [h1, h2]

/-- C1: for a capabilities record that gives the device memory `m ≥ 0`, the core count `c`,
the pixel ratio `r`, a screen of `sw` by `sh` pixels (whole numbers, for which the rounding
of the product does not change its comparison with `2500000`) and the WebGL2 flag `w` (an
omitted flag counting as `false`), and with neither the reduced-motion nor the save-data
override in effect, `detectQualityProfile` returns the level of the score
`(w ? 1 : -2) + (m ≥ 8 ? 2 : m ≥ 4 ? 1 : -1) + (c ≥ 8 ? 2 : c ≥ 4 ? 1 : -1)
- (r > 2.5 ? 1 : 0) - (sw * sh > 2500000 ? 1 : 0) - (0 < m ≤ 2 ? 1 : 0)`:
Low for a score of at most `-1`, Medium above `-1` and up to `1`, High above `1`. No condition
on the core count is needed. -/
theorem C1_detectQualityProfile_score (capabilities : DeviceCapabilities)
    (env : Option BrowserEnvironment) (globalThis : BrowserEnvironment)
    (w : Bool) (m c r : ℚ) (sw sh : ℤ)
    (hmotion : capabilities.prefersReducedMotion = some false ∨
      (capabilities.prefersReducedMotion = none ∧ prefersReducedMotion env globalThis = false))
    (hsave : capabilities.saveData = some false ∨
      (capabilities.saveData = none ∧
        ∀ conn, detectQualityProfile.connection env globalThis = some conn →
          conn.saveData ≠ some true))
    (hwebgl : capabilities.supportsWebGL2 = some w ∨
      (capabilities.supportsWebGL2 = none ∧ w = false))
    (hmemory : capabilities.deviceMemory = some m) (hm : 0 ≤ m)
    (hcores : capabilities.hardwareConcurrency = some c)
    (hratio : capabilities.devicePixelRatio = some r)
    (hwidth : capabilities.screenWidth = some (sw : ℚ))
    (hheight : capabilities.screenHeight = some (sh : ℚ)) :
    detectQualityProfile capabilities env globalThis =
      specLevel (specScore w m c r (sw : ℚ) (sh : ℚ)) := by
  have hmo : detectQualityProfile.reducedMotion capabilities env globalThis = false := by
    unfold detectQualityProfile.reducedMotion
    rcases hmotion with h | ⟨h, hq⟩
    · rw [h]
    · rw [h]; exact hq
  have hsv : detectQualityProfile.dataSaver capabilities env globalThis = false := by
    unfold detectQualityProfile.dataSaver
    rcases hsave with h | ⟨h, hq⟩
    · rw [h]
    · rw [h]
      cases hc : detectQualityProfile.connection env globalThis with
      | none => rfl
      | some conn =>
        have hne := hq conn hc
        cases hs : conn.saveData with
        | none => simp [truthy, hs]
        | some b =>
          cases b
          · simp [truthy, hs]
          · exact absurd hs hne
  have hw : truthy capabilities.supportsWebGL2 = w := by
    rcases hwebgl with h | ⟨h, h'⟩
    · rw [h]; rfl
    · rw [h, h']; rfl
  have h1 : detectQualityProfile.deviceMemory capabilities env globalThis = m := by
    unfold detectQualityProfile.deviceMemory; rw [hmemory]
  have h2 : detectQualityProfile.cores capabilities env globalThis = c := by
    unfold detectQualityProfile.cores; rw [hcores]
  have h3 : detectQualityProfile.pixelRatio capabilities env = r := by
    unfold detectQualityProfile.pixelRatio; rw [hratio]
  have h4 : detectQualityProfile.screenWidth capabilities env = (sw : ℚ) := by
    unfold detectQualityProfile.screenWidth; rw [hwidth]
  have h5 : detectQualityProfile.screenHeight capabilities env = (sh : ℚ) := by
    unfold detectQualityProfile.screenHeight; rw [hheight]
  unfold detectQualityProfile
  simp only [hmo, hsv, Bool.false_eq_true, if_false, h1, h2, h3, h4, h5]
  rw [score_eq_specScore _ _ _ _ _ _ hm, hw]
  exact level_eq_specLevel _

/-- Witness of C1: WebGL2, `8` GB, `2` cores and a screen of `1920` by `1080`, with no
environment and the overrides omitted. At a pixel ratio of `3` the score is `1` and the level
Medium; at a pixel ratio of `1` the score is `2` and the level High. -/
theorem C1_detectQualityProfile_score_witness :
    (detectQualityProfile
        { emptyCapabilities with
          supportsWebGL2 := some true, deviceMemory := some 8, hardwareConcurrency := some 2,
          devicePixelRatio := some 3, screenWidth := some 1920, screenHeight := some 1080 }
        none emptyEnvironment =
      specLevel (specScore true 8 2 3 ((1920 : ℤ) : ℚ) ((1080 : ℤ) : ℚ)) ∧
     specScore true 8 2 3 ((1920 : ℤ) : ℚ) ((1080 : ℤ) : ℚ) = 1 ∧
     specLevel 1 = QUALITY_PRESET_MAPPING.medium) ∧
    (detectQualityProfile
        { emptyCapabilities with
          supportsWebGL2 := some true, deviceMemory := some 8, hardwareConcurrency := some 2,
          devicePixelRatio := some 1, screenWidth := some 1920, screenHeight := some 1080 }
        none emptyEnvironment =
      specLevel (specScore true 8 2 1 ((1920 : ℤ) : ℚ) ((1080 : ℤ) : ℚ)) ∧
     specScore true 8 2 1 ((1920 : ℤ) : ℚ) ((1080 : ℤ) : ℚ) = 2 ∧
     specLevel 2 = QUALITY_PRESET_MAPPING.high) :=
  ⟨⟨C1_detectQualityProfile_score _ none emptyEnvironment true 8 2 3 1920 1080
      (Or.inr ⟨rfl, by decide⟩) (Or.inr ⟨rfl, by decide⟩) (Or.inl rfl) rfl (by norm_num) rfl rfl
      (by simp [emptyCapabilities]) (by simp [emptyCapabilities]),
    by norm_num [specScore], by decide⟩,
   ⟨C1_detectQualityProfile_score _ none emptyEnvironment true 8 2 1 1920 1080
      (Or.inr ⟨rfl, by decide⟩) (Or.inr ⟨rfl, by decide⟩) (Or.inl rfl) rfl (by norm_num) rfl rfl
      (by simp [emptyCapabilities]) (by simp [emptyCapabilities]),
    by norm_num [specScore], by decide⟩⟩

/-- C2: if reduced motion is in effect, `detectQualityProfile` returns Minimal, whatever the
other fields and the rest of the environment are. Reduced motion is in effect when the
capabilities say `prefersReducedMotion = true`, or when they omit it and the media query
`(prefers-reduced-motion: reduce)` reports a match: the call of `matchMedia` on the window of
the injected environment or, when no environment is injected or it has no window, on the
ambient window, returns an object whose `matches` is true. -/
theorem C2_reduced_motion_returns_minimal (capabilities : DeviceCapabilities)
    (env : Option BrowserEnvironment) (globalThis : BrowserEnvironment)
    (h : capabilities.prefersReducedMotion = some true ∨
      (capabilities.prefersReducedMotion = none ∧
        ((∃ e w, env = some e ∧ e.window = some w ∧
            w.matchMedia = some (MatchMediaOutcome.result true)) ∨
         ((env = none ∨ ∃ e, env = some e ∧ e.window = none) ∧
            ∃ w, globalThis.window = some w ∧
              w.matchMedia = some (MatchMediaOutcome.result true))))) :
    detectQualityProfile capabilities env globalThis = QUALITY_PRESET_MAPPING.minimal := by
  have hm : detectQualityProfile.reducedMotion capabilities env globalThis = true := by
    unfold detectQualityProfile.reducedMotion
    rcases h with h | ⟨h, hq⟩
    · rw [h]
    · rw [h]
      rcases hq with ⟨e, w, he, hw, hmatch⟩ | ⟨hno, w, hw, hmatch⟩
      · subst he
        simp [prefersReducedMotion, hw, hmatch]
      · rcases hno with he | ⟨e, he, hnw⟩
        · subst he
          simp [prefersReducedMotion, hw, hmatch]
        · subst he
          simp [prefersReducedMotion, hnw, hw, hmatch]
  unfold detectQualityProfile
  rw [if_pos hm]
  rfl

/-- Witness of C2: high-end signals with `saveData = true`, once with the explicit
reduced-motion preference and no environment, once with the preference omitted and the media
query of the injected environment matching, once with the preference omitted, no injected
environment and the media query of the ambient window matching. -/
theorem C2_reduced_motion_returns_minimal_witness :
    detectQualityProfile
      { highEndCapabilities with prefersReducedMotion := some true, saveData := some true }
      none emptyEnvironment = QUALITY_PRESET_MAPPING.minimal ∧
    detectQualityProfile { highEndCapabilities with saveData := some true }
      (some thriftyEnvironment) emptyEnvironment = QUALITY_PRESET_MAPPING.minimal ∧
    detectQualityProfile { highEndCapabilities with saveData := some true }
      none thriftyEnvironment = QUALITY_PRESET_MAPPING.minimal :=
  ⟨C2_reduced_motion_returns_minimal
      { highEndCapabilities with prefersReducedMotion := some true, saveData := some true }
      none emptyEnvironment (Or.inl rfl),
   C2_reduced_motion_returns_minimal { highEndCapabilities with saveData := some true }
      (some thriftyEnvironment) emptyEnvironment
      (Or.inr ⟨rfl, Or.inl ⟨thriftyEnvironment, _, rfl, rfl, rfl⟩⟩),
   C2_reduced_motion_returns_minimal { highEndCapabilities with saveData := some true }
      none thriftyEnvironment
      (Or.inr ⟨rfl, Or.inr ⟨Or.inl rfl, _, rfl, rfl⟩⟩)⟩

/-- C3: if reduced motion is not in effect and the data saver is (the capabilities say
`saveData = true`, or they omit it and the connection of the environment reports it),
`detectQualityProfile` returns Low, whatever the scoring signals are. -/
theorem C3_save_data_returns_low (capabilities : DeviceCapabilities)
    (env : Option BrowserEnvironment) (globalThis : BrowserEnvironment)
    (hmotion : capabilities.prefersReducedMotion = some false ∨
      (capabilities.prefersReducedMotion = none ∧ prefersReducedMotion env globalThis = false))
    (hsave : capabilities.saveData = some true ∨
      (capabilities.saveData = none ∧
        ∃ c, detectQualityProfile.connection env globalThis = some c ∧ c.saveData = some true)) :
    detectQualityProfile capabilities env globalThis = QUALITY_PRESET_MAPPING.low := by
  have hm : detectQualityProfile.reducedMotion capabilities env globalThis = false := by
    unfold detectQualityProfile.reducedMotion
    rcases hmotion with h | ⟨h, hq⟩
    · rw [h]
    · rw [h]; exact hq
  have hs : detectQualityProfile.dataSaver capabilities env globalThis = true := by
    unfold detectQualityProfile.dataSaver
    rcases hsave with h | ⟨h, c, hc, hd⟩
    · rw [h]
    · rw [h, hc]; simp [truthy, hd]
  unfold detectQualityProfile
  simp only [hm, hs, Bool.false_eq_true, if_false, if_true]
  rfl

/-- Witness of C3: high-end signals, no reduced motion, data saver reported by the
connection of the injected environment. -/
theorem C3_save_data_returns_low_witness :
    detectQualityProfile { highEndCapabilities with prefersReducedMotion := some false }
      (some thriftyEnvironment) emptyEnvironment = QUALITY_PRESET_MAPPING.low :=
  C3_save_data_returns_low { highEndCapabilities with prefersReducedMotion := some false }
    (some thriftyEnvironment) emptyEnvironment (Or.inl rfl)
    (Or.inr ⟨rfl, { saveData := some true }, by decide, rfl⟩)

/-- C4: when reduced motion is not in effect, `detectQualityProfile` never returns Minimal:
its result is High, Medium or Low. -/
theorem C4_minimal_only_by_reduced_motion (capabilities : DeviceCapabilities)
    (env : Option BrowserEnvironment) (globalThis : BrowserEnvironment)
    (hmotion : capabilities.prefersReducedMotion = some false ∨
      (capabilities.prefersReducedMotion = none ∧ prefersReducedMotion env globalThis = false)) :
    detectQualityProfile capabilities env globalThis ≠ QUALITY_PRESET_MAPPING.minimal ∧
    (detectQualityProfile capabilities env globalThis = QUALITY_PRESET_MAPPING.high ∨
     detectQualityProfile capabilities env globalThis = QUALITY_PRESET_MAPPING.medium ∨
     detectQualityProfile capabilities env globalThis = QUALITY_PRESET_MAPPING.low) := by
  have hm : detectQualityProfile.reducedMotion capabilities env globalThis = false := by
    unfold detectQualityProfile.reducedMotion
    rcases hmotion with h | ⟨h, hq⟩
    · rw [h]
    · rw [h]; exact hq
  unfold detectQualityProfile
  simp only [hm, Bool.false_eq_true, if_false]
  split_ifs <;> exact ⟨by decide, by decide⟩

/-- Witness of C4: the empty capabilities object in an environment without signals. -/
theorem C4_minimal_only_by_reduced_motion_witness :
    detectQualityProfile emptyCapabilities none emptyEnvironment ≠
      QUALITY_PRESET_MAPPING.minimal ∧
    (detectQualityProfile emptyCapabilities none emptyEnvironment =
       QUALITY_PRESET_MAPPING.high ∨
     detectQualityProfile emptyCapabilities none emptyEnvironment =
       QUALITY_PRESET_MAPPING.medium ∨
     detectQualityProfile emptyCapabilities none emptyEnvironment =
       QUALITY_PRESET_MAPPING.low) :=
  C4_minimal_only_by_reduced_motion emptyCapabilities none emptyEnvironment
    (Or.inr ⟨rfl, by decide⟩)

/-- C5: the quality sequence is High, Medium, Low, Minimal, and for the level at each index
`i` of it `getNextQualityId` returns, for `'down'` and for an omitted direction, the level at
index `i + 1` when `i < 3` and nothing when `i = 3`, and for `'up'` the level at index `i - 1`
when `i > 0` and nothing when `i = 0`; in particular High goes down to Medium, Minimal goes
down to nothing, Minimal goes up to Low and High goes up to nothing. -/
theorem C5_getNextQualityId_steps :
    QUALITY_SEQUENCE =
      [QUALITY_PRESET_MAPPING.high, QUALITY_PRESET_MAPPING.medium, QUALITY_PRESET_MAPPING.low,
        QUALITY_PRESET_MAPPING.minimal] ∧
    (∀ i : Fin 4,
      getNextQualityId (QUALITY_SEQUENCE.getD i.val "") (some Direction.down) =
        (if i.val < 3 then some (QUALITY_SEQUENCE.getD (i.val + 1) "") else none) ∧
      getNextQualityId (QUALITY_SEQUENCE.getD i.val "") none =
        (if i.val < 3 then some (QUALITY_SEQUENCE.getD (i.val + 1) "") else none) ∧
      getNextQualityId (QUALITY_SEQUENCE.getD i.val "") (some Direction.up) =
        (if i.val > 0 then some (QUALITY_SEQUENCE.getD (i.val - 1) "") else none)) ∧
    getNextQualityId QUALITY_PRESET_MAPPING.high (some Direction.down) =
      some QUALITY_PRESET_MAPPING.medium ∧
    getNextQualityId QUALITY_PRESET_MAPPING.minimal (some Direction.down) = none ∧
    getNextQualityId QUALITY_PRESET_MAPPING.minimal (some Direction.up) =
      some QUALITY_PRESET_MAPPING.low ∧
    getNextQualityId QUALITY_PRESET_MAPPING.high (some Direction.up) = none := by
  decide

/-- An identifier outside the list is not found by `indexOf`. -/
theorem indexOfFrom_of_not_mem (xs : List QualityPresetId) (x : QualityPresetId) (i : Int)
    (h : x ∉ xs) : indexOfFrom xs x i = -1 := by
  induction xs generalizing i with
  | nil => rfl
  | cons y ys ih =>
    have hy : y ≠ x := fun hyx => h (hyx ▸ List.mem_cons_self y ys)
    have hys : x ∉ ys := fun hmem => h (List.mem_cons_of_mem y hmem)
    simp only [indexOfFrom, if_neg hy]
    exact ih (i + 1) hys

/-- C6: for an identifier that is not one of the four levels of the quality sequence,
`getNextQualityId` returns nothing, for either direction and for an omitted one. The function
is total, so no call raises. -/
theorem C6_getNextQualityId_unknown (id : QualityPresetId) (direction : Option Direction)
    (h : id ∉ QUALITY_SEQUENCE) : getNextQualityId id direction = none := by
  unfold getNextQualityId
  simp only [indexOf, indexOfFrom_of_not_mem QUALITY_SEQUENCE id 0 h, if_true]

/-- Witness of C6: the English name `'high'` is not an identifier of the sequence. -/
theorem C6_getNextQualityId_unknown_witness :
    "high" ∉ QUALITY_SEQUENCE ∧ getNextQualityId "high" (some Direction.up) = none :=
  ⟨by decide, C6_getNextQualityId_unknown "high" (some Direction.up) (by decide)⟩

/-- C7: every level of the sequence has a preset, and for levels A before B in the sequence
the preset of A has particle density, particle maximum, Jacobi steps and render steps at least
those of B, and a frame budget at most that of B. -/
theorem C7_presets_monotone (i j : Fin 4) (hij : i < j) :
    ∃ a b, QUALITY_PRESETS (QUALITY_SEQUENCE.getD i.val "") = some a ∧
      QUALITY_PRESETS (QUALITY_SEQUENCE.getD j.val "") = some b ∧
      a.particleDensity ≥ b.particleDensity ∧ a.maxParticles ≥ b.maxParticles ∧
      a.numJacobiSteps ≥ b.numJacobiSteps ∧ a.numRenderSteps ≥ b.numRenderSteps ∧
      a.frameBudget ≤ b.frameBudget := by
  fin_cases i <;> fin_cases j <;> first
    | exact absurd hij (by decide)
    | exact ⟨_, _, rfl, rfl, by
        norm_num [presetAlto, presetMedio, presetBajo, presetMinimo]⟩

/-- Witness of C7: High (index 0) against Minimal (index 3). -/
theorem C7_presets_monotone_witness :
    ∃ a b, QUALITY_PRESETS (QUALITY_SEQUENCE.getD (0 : Fin 4).val "") = some a ∧
      QUALITY_PRESETS (QUALITY_SEQUENCE.getD (3 : Fin 4).val "") = some b ∧
      a.particleDensity ≥ b.particleDensity ∧ a.maxParticles ≥ b.maxParticles ∧
      a.numJacobiSteps ≥ b.numJacobiSteps ∧ a.numRenderSteps ≥ b.numRenderSteps ∧
      a.frameBudget ≤ b.frameBudget :=
  C7_presets_monotone 0 3 (by decide)

/-- An identifier outside the quality sequence has no neighbour in either direction. -/
theorem getNextQualityId_of_not_mem (id : QualityPresetId) (direction : Option Direction)
    (h : id ∉ QUALITY_SEQUENCE) : getNextQualityId id direction = none := by
  unfold getNextQualityId
  simp only [indexOf, indexOfFrom_of_not_mem QUALITY_SEQUENCE id 0 h, if_true]

/-- One evaluation of the controller in closed form, for a warmed-up monitor, auto-tuning on,
a level of the sequence and a loaded preset: the evaluation returns, and its result is a
switch one step down, a switch one step up, or the unchanged state. -/
theorem checkPerformanceAndAdjust_eq (s : ControllerState) (preset : QualityPreset)
    (hauto : s.autoTuning = true) (hwarm : FPS_HISTORY_LENGTH ≤ s.fpsHistory.length)
    (hlevel : s.currentQuality ∈ QUALITY_SEQUENCE) (hpreset : s.currentPreset = some preset) :
    checkPerformanceAndAdjust s = some
      (if s.fps < checkPerformanceAndAdjust.targetFPS preset - 5 ∧
          (getNextQualityId s.currentQuality (some Direction.down)).isSome then
        switchedTo s ((getNextQualityId s.currentQuality (some Direction.down)).getD "")
      else if s.fps > checkPerformanceAndAdjust.targetFPS preset + 10 ∧
          (getNextQualityId s.currentQuality (some Direction.up)).isSome then
        switchedTo s ((getNextQualityId s.currentQuality (some Direction.up)).getD "")
      else s) := by
  obtain ⟨auto, q, p, fc, lt, fps, hist, log⟩ := s
  simp only at hauto hwarm hlevel hpreset
  subst hauto hpreset
  have hw : ¬ hist.length < FPS_HISTORY_LENGTH := not_lt.mpr hwarm
  have d1 : getNextQualityId "alto" (some Direction.down) = some "medio" := by decide
  have d2 : getNextQualityId "medio" (some Direction.down) = some "bajo" := by decide
  have d3 : getNextQualityId "bajo" (some Direction.down) = some "minimo" := by decide
  have d4 : getNextQualityId "minimo" (some Direction.down) = none := by decide
  have u1 : getNextQualityId "alto" (some Direction.up) = none := by decide
  have u2 : getNextQualityId "medio" (some Direction.up) = some "alto" := by decide
  have u3 : getNextQualityId "bajo" (some Direction.up) = some "medio" := by decide
  have u4 : getNextQualityId "minimo" (some Direction.up) = some "bajo" := by decide
  simp only [QUALITY_SEQUENCE, List.mem_cons, List.mem_singleton, List.not_mem_nil,
    or_false] at hlevel
  rcases hlevel with rfl | rfl | rfl | rfl
  · by_cases h1 : fps < checkPerformanceAndAdjust.targetFPS preset - 5 <;>
    by_cases h2 : fps > checkPerformanceAndAdjust.targetFPS preset + 10 <;>
    first
      | exact absurd (lt_trans h1 (lt_of_le_of_lt (by linarith) h2)) (lt_irrefl _)
      | simp [checkPerformanceAndAdjust, updateQualitySettings, switchedTo, QUALITY_PRESETS,
          checkPerformanceAndAdjust.isTruthy, hw, h1, h2, d1, d2, d3, d4, u1, u2, u3, u4]
  · by_cases h1 : fps < checkPerformanceAndAdjust.targetFPS preset - 5 <;>
    by_cases h2 : fps > checkPerformanceAndAdjust.targetFPS preset + 10 <;>
    first
      | exact absurd (lt_trans h1 (lt_of_le_of_lt (by linarith) h2)) (lt_irrefl _)
      | simp [checkPerformanceAndAdjust, updateQualitySettings, switchedTo, QUALITY_PRESETS,
          checkPerformanceAndAdjust.isTruthy, hw, h1, h2, d1, d2, d3, d4, u1, u2, u3, u4]
  · by_cases h1 : fps < checkPerformanceAndAdjust.targetFPS preset - 5 <;>
    by_cases h2 : fps > checkPerformanceAndAdjust.targetFPS preset + 10 <;>
    first
      | exact absurd (lt_trans h1 (lt_of_le_of_lt (by linarith) h2)) (lt_irrefl _)
      | simp [checkPerformanceAndAdjust, updateQualitySettings, switchedTo, QUALITY_PRESETS,
          checkPerformanceAndAdjust.isTruthy, hw, h1, h2, d1, d2, d3, d4, u1, u2, u3, u4]
  · by_cases h1 : fps < checkPerformanceAndAdjust.targetFPS preset - 5 <;>
    by_cases h2 : fps > checkPerformanceAndAdjust.targetFPS preset + 10 <;>
    first
      | exact absurd (lt_trans h1 (lt_of_le_of_lt (by linarith) h2)) (lt_irrefl _)
      | simp [checkPerformanceAndAdjust, updateQualitySettings, switchedTo, QUALITY_PRESETS,
          checkPerformanceAndAdjust.isTruthy, hw, h1, h2, d1, d2, d3, d4, u1, u2, u3, u4]

/-- With a level outside the quality sequence, an evaluation that returns changes nothing. -/
theorem checkPerformanceAndAdjust_of_not_mem (s s' : ControllerState)
    (hlevel : s.currentQuality ∉ QUALITY_SEQUENCE)
    (h : checkPerformanceAndAdjust s = some s') : s' = s := by
  have hd := getNextQualityId_of_not_mem s.currentQuality (some Direction.down) hlevel
  have hu := getNextQualityId_of_not_mem s.currentQuality (some Direction.up) hlevel
  unfold checkPerformanceAndAdjust at h
  simp only [hd, hu, checkPerformanceAndAdjust.isTruthy, Bool.false_eq_true, if_false] at h
  split_ifs at h
  · exact (Option.some.inj h).symm
  · exact (Option.some.inj h).symm
  · cases hp : s.currentPreset with
    | none => simp [hp] at h
    | some p =>
      simp only [hp] at h
      split_ifs at h <;> exact (Option.some.inj h).symm

/-- C8 (the code at the failing input): the target the controller compares the smoothed FPS
with is the frame budget itself, `28` for Medium, and not `1000 / 28`; with the monitor warmed
up at Medium and a smoothed FPS of `25`, which is below `1000 / 28 - 5`, the evaluation leaves
the level at Medium. -/
theorem C8_target_is_frame_budget :
    checkPerformanceAndAdjust.targetFPS presetMedio = 28 ∧
    checkPerformanceAndAdjust.targetFPS presetMedio ≠ 1000 / presetMedio.frameBudget ∧
    (25 : ℚ) < 1000 / presetMedio.frameBudget - 5 ∧
    checkPerformanceAndAdjust (warmState "medio" (QUALITY_PRESETS "medio") 25) =
      some (warmState "medio" (QUALITY_PRESETS "medio") 25) := by
  refine ⟨rfl, ?_, ?_, ?_⟩
  · norm_num [checkPerformanceAndAdjust.targetFPS, presetMedio]
  · norm_num [presetMedio]
  · have h := checkPerformanceAndAdjust_eq (warmState "medio" (QUALITY_PRESETS "medio") 25)
      presetMedio rfl (by simp [warmState]) (by decide) rfl
    rw [h]
    have h1 : ¬ ((25 : ℚ) < checkPerformanceAndAdjust.targetFPS presetMedio - 5) := by
      norm_num [checkPerformanceAndAdjust.targetFPS, presetMedio]
    have h2 : ¬ ((25 : ℚ) > checkPerformanceAndAdjust.targetFPS presetMedio + 10) := by
      norm_num [checkPerformanceAndAdjust.targetFPS, presetMedio]
    simp [warmState, h1, h2]

/-- C9 (the code at failing inputs): the thresholds of an evaluation are `frameBudget - 5` and
`frameBudget + 10`, not `1000 / frameBudget - 5` and `1000 / frameBudget + 10`. With the
monitor warmed up and the target of the specification, `1000 / frameBudget`: at High with a
smoothed FPS of `30` the downgrade condition holds and a lower level exists, yet the level
stays High; at Minimal with `40` the upgrade condition holds (and the downgrade condition does
not) and a higher level exists, yet the level stays Minimal; at Medium with `39` neither
condition holds, yet the controller switches to High. -/
theorem C9_thresholds_use_frame_budget :
    ((30 : ℚ) < specTargetFPS presetAlto - 5 ∧
      getNextQualityId "alto" (some Direction.down) = some "medio" ∧
      checkPerformanceAndAdjust (warmState "alto" (QUALITY_PRESETS "alto") 30) =
        some (warmState "alto" (QUALITY_PRESETS "alto") 30)) ∧
    (¬ ((40 : ℚ) < specTargetFPS presetMinimo - 5) ∧
      (40 : ℚ) > specTargetFPS presetMinimo + 10 ∧
      getNextQualityId "minimo" (some Direction.up) = some "bajo" ∧
      checkPerformanceAndAdjust (warmState "minimo" (QUALITY_PRESETS "minimo") 40) =
        some (warmState "minimo" (QUALITY_PRESETS "minimo") 40)) ∧
    (¬ ((39 : ℚ) < specTargetFPS presetMedio - 5) ∧
      ¬ ((39 : ℚ) > specTargetFPS presetMedio + 10) ∧
      checkPerformanceAndAdjust (warmState "medio" (QUALITY_PRESETS "medio") 39) =
        some (switchedTo (warmState "medio" (QUALITY_PRESETS "medio") 39) "alto")) := by
  refine ⟨⟨?_, by decide, ?_⟩, ⟨?_, ?_, by decide, ?_⟩, ⟨?_, ?_, ?_⟩⟩
  · norm_num [specTargetFPS, presetAlto]
  · have h := checkPerformanceAndAdjust_eq (warmState "alto" (QUALITY_PRESETS "alto") 30)
      presetAlto rfl (by simp [warmState]) (by decide) rfl
    rw [h]
    have h1 : ¬ ((30 : ℚ) < checkPerformanceAndAdjust.targetFPS presetAlto - 5) := by
      norm_num [checkPerformanceAndAdjust.targetFPS, presetAlto]
    have h2 : ¬ ((30 : ℚ) > checkPerformanceAndAdjust.targetFPS presetAlto + 10) := by
      norm_num [checkPerformanceAndAdjust.targetFPS, presetAlto]
    simp [warmState, h1, h2]
  · norm_num [specTargetFPS, presetMinimo]
  · norm_num [specTargetFPS, presetMinimo]
  · have h := checkPerformanceAndAdjust_eq (warmState "minimo" (QUALITY_PRESETS "minimo") 40)
      presetMinimo rfl (by simp [warmState]) (by decide) rfl
    rw [h]
    have h1 : ¬ ((40 : ℚ) < checkPerformanceAndAdjust.targetFPS presetMinimo - 5) := by
      norm_num [checkPerformanceAndAdjust.targetFPS, presetMinimo]
    have h2 : ¬ ((40 : ℚ) > checkPerformanceAndAdjust.targetFPS presetMinimo + 10) := by
      norm_num [checkPerformanceAndAdjust.targetFPS, presetMinimo]
    simp [warmState, h1, h2]
  · norm_num [specTargetFPS, presetMedio]
  · norm_num [specTargetFPS, presetMedio]
  · have h := checkPerformanceAndAdjust_eq (warmState "medio" (QUALITY_PRESETS "medio") 39)
      presetMedio rfl (by simp [warmState]) (by decide) rfl
    rw [h]
    have h1 : ¬ ((39 : ℚ) < checkPerformanceAndAdjust.targetFPS presetMedio - 5) := by
      norm_num [checkPerformanceAndAdjust.targetFPS, presetMedio]
    have h2 : (39 : ℚ) > checkPerformanceAndAdjust.targetFPS presetMedio + 10 := by
      norm_num [checkPerformanceAndAdjust.targetFPS, presetMedio]
    have u2 : getNextQualityId "medio" (some Direction.up) = some "alto" := by decide
    simp [warmState, switchedTo, h1, h2, u2]

/-- C10: for every controller state, an evaluation returns whenever a preset is loaded (with
none loaded it raises and changes nothing); an evaluation that returns either leaves the state
unchanged or carries out exactly one switch, logged once, to a level whose position in the
quality sequence differs by one from the current one; and warmed up at Medium with a smoothed
FPS of `20` it switches to Low, not to Minimal. -/
theorem C10_single_step (s : ControllerState) :
    (s.currentPreset ≠ none → ∃ s', checkPerformanceAndAdjust s = some s') ∧
    (∀ s', checkPerformanceAndAdjust s = some s' →
      (s' = s ∨
        (s' = switchedTo s s'.currentQuality ∧
          levelIndex s.currentQuality ≠ -1 ∧ levelIndex s'.currentQuality ≠ -1 ∧
          (levelIndex s'.currentQuality = levelIndex s.currentQuality + 1 ∨
            levelIndex s'.currentQuality = levelIndex s.currentQuality - 1))) ∧
      (s'.switchLog = s.switchLog ∨
        s'.switchLog = s.switchLog ++ [(s.currentQuality, s'.currentQuality)])) ∧
    (s.autoTuning = true → FPS_HISTORY_LENGTH ≤ s.fpsHistory.length →
      s.currentQuality = QUALITY_PRESET_MAPPING.medium →
      s.currentPreset = QUALITY_PRESETS QUALITY_PRESET_MAPPING.medium → s.fps = 20 →
      checkPerformanceAndAdjust s = some (switchedTo s QUALITY_PRESET_MAPPING.low) ∧
      QUALITY_PRESET_MAPPING.low ≠ QUALITY_PRESET_MAPPING.minimal) := by
  have d1 : getNextQualityId "alto" (some Direction.down) = some "medio" := by decide
  have d2 : getNextQualityId "medio" (some Direction.down) = some "bajo" := by decide
  have d3 : getNextQualityId "bajo" (some Direction.down) = some "minimo" := by decide
  have d4 : getNextQualityId "minimo" (some Direction.down) = none := by decide
  have u1 : getNextQualityId "alto" (some Direction.up) = none := by decide
  have u2 : getNextQualityId "medio" (some Direction.up) = some "alto" := by decide
  have u3 : getNextQualityId "bajo" (some Direction.up) = some "medio" := by decide
  have u4 : getNextQualityId "minimo" (some Direction.up) = some "bajo" := by decide
  have i1 : levelIndex "alto" = 0 := by decide
  have i2 : levelIndex "medio" = 1 := by decide
  have i3 : levelIndex "bajo" = 2 := by decide
  have i4 : levelIndex "minimo" = 3 := by decide
  have hstep : ∀ s', checkPerformanceAndAdjust s = some s' →
      (s' = s ∨
        (s' = switchedTo s s'.currentQuality ∧
          levelIndex s.currentQuality ≠ -1 ∧ levelIndex s'.currentQuality ≠ -1 ∧
          (levelIndex s'.currentQuality = levelIndex s.currentQuality + 1 ∨
            levelIndex s'.currentQuality = levelIndex s.currentQuality - 1))) := by
    intro s' h
    by_cases hmem : s.currentQuality ∈ QUALITY_SEQUENCE
    swap
    · exact Or.inl (checkPerformanceAndAdjust_of_not_mem s s' hmem h)
    by_cases hauto : s.autoTuning = true
    swap
    · left
      simp [checkPerformanceAndAdjust, hauto] at h
      exact h.symm
    by_cases hwarm : FPS_HISTORY_LENGTH ≤ s.fpsHistory.length
    swap
    · left
      simp [checkPerformanceAndAdjust, hauto, not_le.mp hwarm] at h
      exact h.symm
    cases hp : s.currentPreset with
    | none => simp [checkPerformanceAndAdjust, hauto, not_lt.mpr hwarm, hp] at h
    | some preset =>
      rw [checkPerformanceAndAdjust_eq s preset hauto hwarm hmem hp] at h
      obtain rfl := Option.some.inj h
      clear h
      simp only [QUALITY_SEQUENCE, List.mem_cons, List.mem_singleton, List.not_mem_nil,
        or_false] at hmem
      rcases hmem with hq | hq | hq | hq <;>
        simp only [hq, d1, d2, d3, d4, u1, u2, u3, u4, Option.isSome_some, Option.isSome_none,
          Option.getD_some, Option.getD_none, and_true, and_false, Bool.false_eq_true,
          if_false] <;>
        split_ifs <;>
        simp [switchedTo, hq, i1, i2, i3, i4]
  refine ⟨?_, fun s' h => ⟨hstep s' h, ?_⟩, ?_⟩
  · intro hne
    obtain ⟨preset, hp⟩ := Option.ne_none_iff_exists'.mp hne
    by_cases hauto : s.autoTuning = true
    swap
    · exact ⟨s, by simp [checkPerformanceAndAdjust, hauto]⟩
    by_cases hwarm : FPS_HISTORY_LENGTH ≤ s.fpsHistory.length
    swap
    · exact ⟨s, by simp [checkPerformanceAndAdjust, hauto, not_le.mp hwarm]⟩
    by_cases hmem : s.currentQuality ∈ QUALITY_SEQUENCE
    · exact ⟨_, checkPerformanceAndAdjust_eq s preset hauto hwarm hmem hp⟩
    · have hd := getNextQualityId_of_not_mem s.currentQuality (some Direction.down) hmem
      have hu := getNextQualityId_of_not_mem s.currentQuality (some Direction.up) hmem
      refine ⟨s, ?_⟩
      simp [checkPerformanceAndAdjust, hauto, not_lt.mpr hwarm, hp, hd, hu,
        checkPerformanceAndAdjust.isTruthy]
  · rcases hstep s' h with rfl | ⟨hs, -⟩
    · exact Or.inl rfl
    · right
      have hlog := congrArg ControllerState.switchLog hs
      simpa [switchedTo] using hlog
  · intro hauto hwarm hq hp hfps
    have hmem : s.currentQuality ∈ QUALITY_SEQUENCE := by rw [hq]; decide
    have hp' : s.currentPreset = some presetMedio := by rw [hp]; rfl
    refine ⟨?_, by decide⟩
    rw [checkPerformanceAndAdjust_eq s presetMedio hauto hwarm hmem hp', hq, hfps]
    have hq' : QUALITY_PRESET_MAPPING.medium = "medio" := rfl
    have hl : QUALITY_PRESET_MAPPING.low = "bajo" := rfl
    have hlt : (20 : ℚ) < checkPerformanceAndAdjust.targetFPS presetMedio - 5 := by
      norm_num [checkPerformanceAndAdjust.targetFPS, presetMedio]
    simp [hq', hl, d2, hlt]

/-- Witness of C10: warmed up at Medium with a smoothed FPS of `20`, the evaluation carries
out the single switch to Low. -/
theorem C10_single_step_witness :
    checkPerformanceAndAdjust (warmState "medio" (QUALITY_PRESETS "medio") 20) =
      some (switchedTo (warmState "medio" (QUALITY_PRESETS "medio") 20) "bajo") :=
  ((C10_single_step (warmState "medio" (QUALITY_PRESETS "medio") 20)).2.2 rfl
    (by simp [warmState]) rfl rfl rfl).1

/-- C11: while the FPS history holds fewer than `FPS_HISTORY_LENGTH = 60` samples, and
likewise whenever auto-tuning is switched off, an evaluation of the controller returns the
state unchanged, whatever the smoothed FPS, the level and the loaded preset are. -/
theorem C11_cold_start_guard (s : ControllerState)
    (h : s.fpsHistory.length < 60 ∨ s.autoTuning = false) :
    FPS_HISTORY_LENGTH = 60 ∧ checkPerformanceAndAdjust s = some s := by
  refine ⟨rfl, ?_⟩
  unfold checkPerformanceAndAdjust
  rcases h with h | h
  · have h' : s.fpsHistory.length < FPS_HISTORY_LENGTH := h
    by_cases ha : s.autoTuning = true
    · simp [ha, h']
    · simp [ha]
  · simp [h]

/-- Witness of C11: Medium with a smoothed FPS of `5`, far below every threshold, and only
`59` samples in the history. -/
theorem C11_cold_start_guard_witness :
    checkPerformanceAndAdjust
      { warmState "medio" (QUALITY_PRESETS "medio") 5 with
        fpsHistory := List.replicate 59 5 } =
      some { warmState "medio" (QUALITY_PRESETS "medio") 5 with
        fpsHistory := List.replicate 59 5 } :=
  (C11_cold_start_guard
    { warmState "medio" (QUALITY_PRESETS "medio") 5 with fpsHistory := List.replicate 59 5 }
    (Or.inl (by simp [warmState]))).2

/-- After a switch the unchanged smoothed FPS is always outside the band of the new level,
as the controller computes it: a downgrade raises the target and an upgrade lowers it. -/
theorem switch_leaves_band (s s' : ControllerState) (preset' : QualityPreset)
    (hauto : s.autoTuning = true) (hwarm : FPS_HISTORY_LENGTH ≤ s.fpsHistory.length)
    (hlevel : s.currentQuality ∈ QUALITY_SEQUENCE)
    (hpreset : s.currentPreset = QUALITY_PRESETS s.currentQuality)
    (hstep : checkPerformanceAndAdjust s = some s') (hmoved : s' ≠ s)
    (hp' : s'.currentPreset = some preset') :
    s'.fps < checkPerformanceAndAdjust.targetFPS preset' - 5 ∨
      s'.fps > checkPerformanceAndAdjust.targetFPS preset' + 10 := by
  obtain ⟨auto, q, p, fc, lt, fps, hist, log⟩ := s
  simp only at hauto hwarm hlevel hpreset
  subst hauto hpreset
  have d1 : getNextQualityId "alto" (some Direction.down) = some "medio" := by decide
  have d2 : getNextQualityId "medio" (some Direction.down) = some "bajo" := by decide
  have d3 : getNextQualityId "bajo" (some Direction.down) = some "minimo" := by decide
  have d4 : getNextQualityId "minimo" (some Direction.down) = none := by decide
  have u1 : getNextQualityId "alto" (some Direction.up) = none := by decide
  have u2 : getNextQualityId "medio" (some Direction.up) = some "alto" := by decide
  have u3 : getNextQualityId "bajo" (some Direction.up) = some "medio" := by decide
  have u4 : getNextQualityId "minimo" (some Direction.up) = some "bajo" := by decide
  simp only [QUALITY_SEQUENCE, List.mem_cons, List.mem_singleton, List.not_mem_nil,
    or_false] at hlevel
  rcases hlevel with rfl | rfl | rfl | rfl
  · have hc := checkPerformanceAndAdjust_eq
      ⟨true, "alto", QUALITY_PRESETS "alto", fc, lt, fps, hist, log⟩ presetAlto rfl hwarm
      (by simp [QUALITY_SEQUENCE]) rfl
    rw [hc] at hstep
    obtain rfl := Option.some.inj hstep
    simp only [d1, d2, d3, d4, u1, u2, u3, u4, Option.isSome_some, Option.isSome_none,
      Option.getD_some, Option.getD_none, and_true, and_false, Bool.false_eq_true,
      if_false] at hmoved hp' ⊢
    split_ifs at hmoved hp' ⊢
    all_goals first
      | exact absurd rfl hmoved
      | (obtain rfl := Option.some.inj hp'
         simp only [checkPerformanceAndAdjust.targetFPS, presetAlto, presetMedio, presetBajo,
           presetMinimo, switchedTo] at *
         left; linarith)
  · have hc := checkPerformanceAndAdjust_eq
      ⟨true, "medio", QUALITY_PRESETS "medio", fc, lt, fps, hist, log⟩ presetMedio rfl hwarm
      (by simp [QUALITY_SEQUENCE]) rfl
    rw [hc] at hstep
    obtain rfl := Option.some.inj hstep
    simp only [d1, d2, d3, d4, u1, u2, u3, u4, Option.isSome_some, Option.isSome_none,
      Option.getD_some, Option.getD_none, and_true, and_false, Bool.false_eq_true,
      if_false] at hmoved hp' ⊢
    split_ifs at hmoved hp' ⊢
    all_goals first
      | exact absurd rfl hmoved
      | (obtain rfl := Option.some.inj hp'
         simp only [checkPerformanceAndAdjust.targetFPS, presetAlto, presetMedio, presetBajo,
           presetMinimo, switchedTo] at *
         first
           | (left; linarith)
           | (right; linarith))
  · have hc := checkPerformanceAndAdjust_eq
      ⟨true, "bajo", QUALITY_PRESETS "bajo", fc, lt, fps, hist, log⟩ presetBajo rfl hwarm
      (by simp [QUALITY_SEQUENCE]) rfl
    rw [hc] at hstep
    obtain rfl := Option.some.inj hstep
    simp only [d1, d2, d3, d4, u1, u2, u3, u4, Option.isSome_some, Option.isSome_none,
      Option.getD_some, Option.getD_none, and_true, and_false, Bool.false_eq_true,
      if_false] at hmoved hp' ⊢
    split_ifs at hmoved hp' ⊢
    all_goals first
      | exact absurd rfl hmoved
      | (obtain rfl := Option.some.inj hp'
         simp only [checkPerformanceAndAdjust.targetFPS, presetAlto, presetMedio, presetBajo,
           presetMinimo, switchedTo] at *
         first
           | (left; linarith)
           | (right; linarith))
  · have hc := checkPerformanceAndAdjust_eq
      ⟨true, "minimo", QUALITY_PRESETS "minimo", fc, lt, fps, hist, log⟩ presetMinimo rfl hwarm
      (by simp [QUALITY_SEQUENCE]) rfl
    rw [hc] at hstep
    obtain rfl := Option.some.inj hstep
    simp only [d1, d2, d3, d4, u1, u2, u3, u4, Option.isSome_some, Option.isSome_none,
      Option.getD_some, Option.getD_none, and_true, and_false, Bool.false_eq_true,
      if_false] at hmoved hp' ⊢
    split_ifs at hmoved hp' ⊢
    all_goals first
      | exact absurd rfl hmoved
      | (obtain rfl := Option.some.inj hp'
         simp only [checkPerformanceAndAdjust.targetFPS, presetAlto, presetMedio, presetBajo,
           presetMinimo, switchedTo] at *
         right; linarith)

/-- C12 (the code at the failing input): warmed up at Low with a smoothed FPS of `43`, an
evaluation moves the controller to Medium; `43` lies within the band of Medium for the target
`1000 / 28` of the specification; yet the next evaluation with the same smoothed FPS moves
on to High instead of producing no change. With the target the controller computes, the
smoothed FPS is outside the band of the new level after every switch. -/
theorem C12_switch_cascades :
    checkPerformanceAndAdjust (warmState "bajo" (QUALITY_PRESETS "bajo") 43) =
      some (switchedTo (warmState "bajo" (QUALITY_PRESETS "bajo") 43) "medio") ∧
    ¬ ((43 : ℚ) < specTargetFPS presetMedio - 5) ∧
    ¬ ((43 : ℚ) > specTargetFPS presetMedio + 10) ∧
    checkPerformanceAndAdjust
        (switchedTo (warmState "bajo" (QUALITY_PRESETS "bajo") 43) "medio") =
      some (switchedTo (switchedTo (warmState "bajo" (QUALITY_PRESETS "bajo") 43) "medio")
        "alto") ∧
    (∀ (s s' : ControllerState) (preset' : QualityPreset), s.autoTuning = true →
      FPS_HISTORY_LENGTH ≤ s.fpsHistory.length → s.currentQuality ∈ QUALITY_SEQUENCE →
      s.currentPreset = QUALITY_PRESETS s.currentQuality →
      checkPerformanceAndAdjust s = some s' → s' ≠ s → s'.currentPreset = some preset' →
      s'.fps < checkPerformanceAndAdjust.targetFPS preset' - 5 ∨
        s'.fps > checkPerformanceAndAdjust.targetFPS preset' + 10) := by
  have u3 : getNextQualityId "bajo" (some Direction.up) = some "medio" := by decide
  have u2 : getNextQualityId "medio" (some Direction.up) = some "alto" := by decide
  have d3 : getNextQualityId "bajo" (some Direction.down) = some "minimo" := by decide
  have d2 : getNextQualityId "medio" (some Direction.down) = some "bajo" := by decide
  refine ⟨?_, ?_, ?_, ?_, fun s s' preset' h1 h2 h3 h4 h5 h6 h7 =>
    switch_leaves_band s s' preset' h1 h2 h3 h4 h5 h6 h7⟩
  · rw [checkPerformanceAndAdjust_eq (warmState "bajo" (QUALITY_PRESETS "bajo") 43)
      presetBajo rfl (by simp [warmState]) (by decide) rfl]
    have h1 : ¬ ((43 : ℚ) < checkPerformanceAndAdjust.targetFPS presetBajo - 5) := by
      norm_num [checkPerformanceAndAdjust.targetFPS, presetBajo]
    have h2 : (43 : ℚ) > checkPerformanceAndAdjust.targetFPS presetBajo + 10 := by
      norm_num [checkPerformanceAndAdjust.targetFPS, presetBajo]
    simp [warmState, h1, h2, u3, d3]
  · norm_num [specTargetFPS, presetMedio]
  · norm_num [specTargetFPS, presetMedio]
  · rw [checkPerformanceAndAdjust_eq
      (switchedTo (warmState "bajo" (QUALITY_PRESETS "bajo") 43) "medio")
      presetMedio rfl (by simp [warmState, switchedTo]) (by decide) rfl]
    have h1 : ¬ ((43 : ℚ) < checkPerformanceAndAdjust.targetFPS presetMedio - 5) := by
      norm_num [checkPerformanceAndAdjust.targetFPS, presetMedio]
    have h2 : (43 : ℚ) > checkPerformanceAndAdjust.targetFPS presetMedio + 10 := by
      norm_num [checkPerformanceAndAdjust.targetFPS, presetMedio]
    simp [warmState, switchedTo, h1, h2, u2, d2]

/-- The rounded magnitude of a fraction is not negative. -/
theorem binary64.magnitude_nonneg (n d : ℕ) : 0 ≤ binary64.magnitude n d := by
  unfold binary64.magnitude
  split_ifs <;> positivity

/-- Rounding does not make positive a number that is not. -/
theorem binary64_nonpos (x : ℚ) (h : x ≤ 0) : binary64 x ≤ 0 := by
  unfold binary64
  split_ifs with hneg
  · exact neg_nonpos.mpr (binary64.magnitude_nonneg _ _)
  · have h0 : x.num = 0 := le_antisymm (Rat.num_nonpos.mpr h) (not_lt.mp hneg)
    rw [h0]
    show binary64.magnitude 0 x.den ≤ 0
    unfold binary64.magnitude
    exact (if_pos rfl).le

/-- A call of `updateFPS` with a positive delta: the sample `1000 / delta` is pushed, the
oldest sample is shifted out when the history exceeds its capacity, and the smoothed FPS is
the mean of the resulting history as double arithmetic computes it. -/
theorem updateFPS_of_pos (s : ControllerState) (now : ℚ)
    (h : binary64 (now - s.lastTime) > 0) :
    (updateFPS s now).fpsHistory =
      (if (s.fpsHistory ++ [binary64 (1000 / binary64 (now - s.lastTime))]).length >
          FPS_HISTORY_LENGTH then
        (s.fpsHistory ++ [binary64 (1000 / binary64 (now - s.lastTime))]).tail
      else s.fpsHistory ++ [binary64 (1000 / binary64 (now - s.lastTime))]) ∧
    (updateFPS s now).fps = roundedMean (updateFPS s now).fpsHistory ∧
    (updateFPS s now).lastTime = now := by
  simp only [updateFPS, h, if_true, roundedMean]
  exact ⟨trivial, trivial, trivial⟩

/-- A call of `updateFPS` with a zero or negative delta records nothing. -/
theorem updateFPS_of_not_pos (s : ControllerState) (now : ℚ)
    (h : ¬ binary64 (now - s.lastTime) > 0) :
    (updateFPS s now).fpsHistory = s.fpsHistory ∧ (updateFPS s now).fps = s.fps ∧
    (updateFPS s now).lastTime = now := by
  simp only [updateFPS, h, if_false]
  exact ⟨trivial, trivial, trivial⟩

/-- Pushing a sample onto the most recent `60` and shifting when the capacity is exceeded
gives the most recent `60` of the extended sequence. -/
theorem push_shift_mostRecent (acc : List ℚ) (x : ℚ) :
    (if (mostRecent 60 acc ++ [x]).length > FPS_HISTORY_LENGTH then
      (mostRecent 60 acc ++ [x]).tail
    else mostRecent 60 acc ++ [x]) = mostRecent 60 (acc ++ [x]) := by
  unfold mostRecent FPS_HISTORY_LENGTH
  by_cases hlen : acc.length < 60
  · have h0 : acc.length - 60 = 0 := by omega
    have h1 : (acc ++ [x]).length - 60 = 0 := by simp; omega
    have h2 : ¬ (acc ++ [x]).length > 60 := by simp; omega
    simp only [h0, h1, List.drop_zero, h2, if_false]
  · have hne : List.drop (acc.length - 60) acc ≠ [] := by
      intro hnil
      have := List.drop_eq_nil_iff.mp hnil
      omega
    have h1 : (List.drop (acc.length - 60) acc ++ [x]).length > 60 := by
      simp only [List.length_append, List.length_drop, List.length_singleton]
      omega
    have h2 : (acc ++ [x]).length - 60 = acc.length - 60 + 1 := by simp; omega
    rw [if_pos h1, List.tail_append_of_ne_nil hne, List.tail_drop, h2,
      List.drop_append_of_le_length (by omega)]

/-- After any run of frames the history is the most recent `60` of all samples recorded. -/
theorem runFrames_history (nows : List ℚ) :
    ∀ (s : ControllerState) (acc : List ℚ), s.fpsHistory = mostRecent 60 acc →
      (runFrames s nows).fpsHistory = mostRecent 60 (acc ++ samplesFrom s.lastTime nows) := by
  induction nows with
  | nil =>
    intro s acc h
    simpa [runFrames, samplesFrom] using h
  | cons now rest ih =>
    intro s acc h
    show (runFrames (updateFPS s now) rest).fpsHistory = _
    by_cases hd : binary64 (now - s.lastTime) > 0
    · obtain ⟨hh, -, hl⟩ := updateFPS_of_pos s now hd
      have hinv : (updateFPS s now).fpsHistory =
          mostRecent 60 (acc ++ [binary64 (1000 / binary64 (now - s.lastTime))]) := by
        rw [hh, h]
        exact push_shift_mostRecent acc _
      have := ih (updateFPS s now) _ hinv
      rw [this, hl]
      simp [samplesFrom, hd]
    · obtain ⟨hh, -, hl⟩ := updateFPS_of_not_pos s now hd
      have := ih (updateFPS s now) acc (hh.trans h)
      rw [this, hl]
      simp [samplesFrom, hd]

/-- C13: starting from an empty history, after any sequence of calls of `updateFPS` the
history holds at most `60` samples and is the most recent `60` (or all, when fewer) of the
instantaneous FPS samples of the positive-delta frames, in arrival order; once `60` or more
such frames have been recorded it holds exactly `60` samples, the oldest ones having been
evicted. -/
theorem C13_history_bounded (s : ControllerState) (nows : List ℚ) (h : s.fpsHistory = []) :
    (runFrames s nows).fpsHistory.length ≤ 60 ∧
    (runFrames s nows).fpsHistory = mostRecent 60 (samplesFrom s.lastTime nows) ∧
    (60 ≤ (samplesFrom s.lastTime nows).length →
      (runFrames s nows).fpsHistory.length = 60 ∧
      (runFrames s nows).fpsHistory =
        (samplesFrom s.lastTime nows).drop ((samplesFrom s.lastTime nows).length - 60)) := by
  have hrun := runFrames_history nows s [] (by simp [h, mostRecent])
  rw [List.nil_append] at hrun
  refine ⟨?_, hrun, fun hlen => ⟨?_, hrun⟩⟩
  · rw [hrun, mostRecent, List.length_drop]
    omega
  · rw [hrun, mostRecent, List.length_drop]
    omega

/-- Witness of C13: four timestamps after the initial state, one of them repeated. -/
theorem C13_history_bounded_witness :
    (runFrames (initialState 0) [10, 20, 20, 35]).fpsHistory.length ≤ 60 ∧
    (runFrames (initialState 0) [10, 20, 20, 35]).fpsHistory =
      mostRecent 60 (samplesFrom (initialState 0).lastTime [10, 20, 20, 35]) :=
  ⟨(C13_history_bounded (initialState 0) [10, 20, 20, 35] rfl).1,
   (C13_history_bounded (initialState 0) [10, 20, 20, 35] rfl).2.1⟩

/-- C14: a call of `updateFPS` whose timestamp is not later than the previous one (zero or
negative delta) records no sample: the FPS history and the smoothed FPS are unchanged. -/
theorem C14_non_positive_delta_ignored (s : ControllerState) (now : ℚ)
    (h : now - s.lastTime ≤ 0) :
    (updateFPS s now).fpsHistory = s.fpsHistory ∧ (updateFPS s now).fps = s.fps := by
  have h' := updateFPS_of_not_pos s now (not_lt.mpr (binary64_nonpos _ h))
  exact ⟨h'.1, h'.2.1⟩

/-- Witness of C14: a timestamp one millisecond before the previous one. -/
theorem C14_non_positive_delta_ignored_witness :
    (updateFPS (warmState "medio" (QUALITY_PRESETS "medio") 30) (-1)).fpsHistory =
      (warmState "medio" (QUALITY_PRESETS "medio") 30).fpsHistory ∧
    (updateFPS (warmState "medio" (QUALITY_PRESETS "medio") 30) (-1)).fps =
      (warmState "medio" (QUALITY_PRESETS "medio") 30).fps :=
  C14_non_positive_delta_ignored (warmState "medio" (QUALITY_PRESETS "medio") 30) (-1)
    (by norm_num [warmState])

/-- The timestamps of `n + 1` frames are those of `n` frames followed by one more. -/
theorem constantFrames_succ (t0 d : ℚ) (n : ℕ) :
    constantFrames t0 d (n + 1) = constantFrames t0 d n ++ [t0 + ((n : ℚ) + 1) * d] := by
  simp [constantFrames, List.range_succ]

/-- In exact arithmetic the mean of a non-empty list of equal samples is that sample. -/
theorem mean_replicate (m : ℕ) (x : ℚ) (hm : 0 < m) : mean (List.replicate m x) = x := by
  have hm' : (m : ℚ) ≠ 0 := Nat.cast_ne_zero.mpr (Nat.pos_iff_ne_zero.mp hm)
  simp only [mean, List.sum_replicate, List.length_replicate, nsmul_eq_mul]
  field_simp

/-- State of the monitor after `n` frames whose timestamps are `d` apart, the double nearest
to `d` being positive, starting from an empty history: the samples are all the double
`1000 / d`, and the smoothed FPS is their mean as double arithmetic computes it. -/
theorem runFrames_constant (s : ControllerState) (d : ℚ) (hd : 0 < binary64 d)
    (h : s.fpsHistory = []) (n : ℕ) :
    (runFrames s (constantFrames s.lastTime d n)).lastTime = s.lastTime + (n : ℚ) * d ∧
    (runFrames s (constantFrames s.lastTime d n)).fpsHistory =
      List.replicate (min n 60) (binary64 (1000 / binary64 d)) ∧
    (0 < n → (runFrames s (constantFrames s.lastTime d n)).fps =
      roundedMean (List.replicate (min n 60) (binary64 (1000 / binary64 d)))) := by
  induction n with
  | zero => simp [constantFrames, runFrames, h]
  | succ n ih =>
    obtain ⟨hl, hh, -⟩ := ih
    have hrun : runFrames s (constantFrames s.lastTime d (n + 1)) =
        updateFPS (runFrames s (constantFrames s.lastTime d n))
          (s.lastTime + ((n : ℚ) + 1) * d) := by
      rw [constantFrames_succ]
      simp [runFrames, List.foldl_append]
    have hdelta : s.lastTime + ((n : ℚ) + 1) * d -
        (runFrames s (constantFrames s.lastTime d n)).lastTime = d := by
      rw [hl]; ring
    obtain ⟨h1, h2, h3⟩ := updateFPS_of_pos (runFrames s (constantFrames s.lastTime d n))
      (s.lastTime + ((n : ℚ) + 1) * d) (by rw [hdelta]; exact hd)
    rw [hdelta, hh, ← List.replicate_succ'] at h1
    have hhist : (runFrames s (constantFrames s.lastTime d (n + 1))).fpsHistory =
        List.replicate (min (n + 1) 60) (binary64 (1000 / binary64 d)) := by
      rw [hrun, h1]
      by_cases hn : n < 60
      · have e1 : min n 60 = n := by omega
        have e2 : min (n + 1) 60 = n + 1 := by omega
        have e3 : ¬ (List.replicate (n + 1) (binary64 (1000 / binary64 d))).length >
            FPS_HISTORY_LENGTH := by
          simp [FPS_HISTORY_LENGTH]; omega
        rw [e1, e2, if_neg e3]
      · have e1 : min n 60 = 60 := by omega
        have e2 : min (n + 1) 60 = 60 := by omega
        have e3 : (List.replicate (60 + 1) (binary64 (1000 / binary64 d))).length >
            FPS_HISTORY_LENGTH := by
          simp [FPS_HISTORY_LENGTH]
        rw [e1, e2, if_pos e3, List.tail_replicate]
    refine ⟨?_, hhist, fun _ => ?_⟩
    · rw [hrun, h3]; push_cast; ring
    · have h2' := h2
      rw [← hrun, hhist] at h2'
      exact h2'

/-- C15 (counterexample): three frames at the constant interval of `9` ms after the initial
state, whose history is empty. The three samples are the double `1000 / 9`
(`111.1111111111111`), and after the third frame the smoothed FPS is the double
`111.11111111111113`: it is not the double `1000 / 9`, it is not the exact quotient
`1000 / 9`, and it is not the arithmetic mean of the samples in the history. -/
theorem C15_constant_interval_counterexample :
    (initialState 0).fpsHistory = [] ∧
    constantFrames (initialState 0).lastTime 9 3 = [9, 18, 27] ∧
    (runFrames (initialState 0) (constantFrames (initialState 0).lastTime 9 3)).fpsHistory =
      List.replicate 3 (binary64 (1000 / 9)) ∧
    binary64 (1000 / 9) = 3909374676536889 / 35184372088832 ∧
    (runFrames (initialState 0) (constantFrames (initialState 0).lastTime 9 3)).fps =
      7818749353073779 / 70368744177664 ∧
    (runFrames (initialState 0) (constantFrames (initialState 0).lastTime 9 3)).fps ≠
      binary64 (1000 / 9) ∧
    (runFrames (initialState 0) (constantFrames (initialState 0).lastTime 9 3)).fps ≠
      1000 / 9 ∧
    (runFrames (initialState 0) (constantFrames (initialState 0).lastTime 9 3)).fps ≠
      mean (runFrames (initialState 0)
        (constantFrames (initialState 0).lastTime 9 3)).fpsHistory := by
  refine ⟨rfl, ?_, ?_, ?_, ?_, ?_, ?_, ?_⟩ <;> decide!

/-- C15 (amended): after a frame with a positive delta the smoothed FPS is the mean of the
samples then in the history as double arithmetic computes it (the samples added one by one
from the oldest, the sum divided by their number, every operation rounded), the newest sample
being the double `1000 / delta`; hence, from an empty history, frames whose timestamps are `d`
apart make every sample the double `1000 / d` and the smoothed FPS the rounded mean of equal
samples, which exact arithmetic would make the sample itself; and `60` frames at the
timestamps `k * 16.667` ms give a smoothed FPS within `0.5` of `60`. -/
theorem C15_smoothed_fps_is_rounded_mean (s : ControllerState) (now d : ℚ) (n : ℕ) :
    (binary64 (now - s.lastTime) > 0 →
      (updateFPS s now).fps = roundedMean (updateFPS s now).fpsHistory ∧
      (updateFPS s now).fpsHistory.getLast? =
        some (binary64 (1000 / binary64 (now - s.lastTime)))) ∧
    (0 < binary64 d → s.fpsHistory = [] → 0 < n →
      (runFrames s (constantFrames s.lastTime d n)).fpsHistory =
        List.replicate (min n 60) (binary64 (1000 / binary64 d)) ∧
      (runFrames s (constantFrames s.lastTime d n)).fps =
        roundedMean (List.replicate (min n 60) (binary64 (1000 / binary64 d)))) ∧
    (∀ (k : ℕ) (x : ℚ), 0 < k → mean (List.replicate k x) = x) ∧
    |(runFrames (initialState 0) (doubleFrames (binary64 (16667 / 1000)) 60)).fps - 60|
      < 1 / 2 := by
  refine ⟨fun hpos => ?_, fun hd h hn => ?_, fun k x hk => mean_replicate k x hk, ?_⟩
  · obtain ⟨h1, h2, -⟩ := updateFPS_of_pos s now hpos
    refine ⟨h2, ?_⟩
    rw [h1]
    split_ifs with hlen
    · have hne : s.fpsHistory ≠ [] := by
        intro hnil
        simp [hnil, FPS_HISTORY_LENGTH] at hlen
      rw [List.tail_append_of_ne_nil hne]
      simp
    · simp
  · exact ⟨(runFrames_constant s d hd h n).2.1, (runFrames_constant s d hd h n).2.2 hn⟩
  · decide!

/-- Witness of C15: one frame ten milliseconds after the initial state, and three frames ten
milliseconds apart, after which the smoothed FPS is `100`. -/
theorem C15_smoothed_fps_is_rounded_mean_witness :
    (updateFPS (initialState 0) 10).fps = roundedMean (updateFPS (initialState 0) 10).fpsHistory ∧
    (runFrames (initialState 0) (constantFrames (initialState 0).lastTime 10 3)).fps =
      roundedMean (List.replicate (min 3 60) (binary64 (1000 / binary64 10))) ∧
    roundedMean (List.replicate (min 3 60) (binary64 (1000 / binary64 10))) = 100 :=
  ⟨((C15_smoothed_fps_is_rounded_mean (initialState 0) 10 10 3).1 (by decide!)).1,
   ((C15_smoothed_fps_is_rounded_mean (initialState 0) 10 10 3).2.1 (by decide!) rfl
      (by decide)).2,
   by decide!⟩

/-- Value of `shouldDowngrade` on an adapter with a preset applied. -/
theorem shouldDowngrade_of_preset (a : PerformanceAdapter) (p : QualityPreset)
    (currentFPS : ℚ) (h : a._currentPreset = some p) :
    (a.shouldDowngrade currentFPS).1 =
      JSNumber.lessThan currentFPS
        ((JSNumber.div 1000 p.frameBudget).mul (binary64 (8 / 10))) := by
  unfold PerformanceAdapter.shouldDowngrade
  rw [h]

/-- Comparison of a number with a finite value. -/
theorem lessThan_finite (a v : ℚ) :
    JSNumber.lessThan a (JSNumber.finite v) = true ↔ a < v := by
  simp only [JSNumber.lessThan, decide_eq_true_eq]

/-- The double that the literal `0.8` denotes. -/
theorem binary64_eight_tenths : binary64 (8 / 10) = 3602879701896397 / 4503599627370496 := by
  decide!

/-- Thresholds of `shouldDowngrade` for the four presets of the table, in double arithmetic:
`36.36363636363637`, `28.571428571428573`, `25` and `22.222222222222225`. -/
theorem shouldDowngrade_thresholds :
    (JSNumber.div 1000 presetAlto.frameBudget).mul (binary64 (8 / 10)) =
      JSNumber.finite (5117726849284655 / 140737488355328) ∧
    (JSNumber.div 1000 presetMedio.frameBudget).mul (binary64 (8 / 10)) =
      JSNumber.finite (8042142191733029 / 281474976710656) ∧
    (JSNumber.div 1000 presetBajo.frameBudget).mul (binary64 (8 / 10)) =
      JSNumber.finite 25 ∧
    (JSNumber.div 1000 presetMinimo.frameBudget).mul (binary64 (8 / 10)) =
      JSNumber.finite (6254999482459023 / 281474976710656) := by
  refine ⟨?_, ?_, ?_, ?_⟩ <;> decide!

/-- C16: `shouldDowngrade(currentFPS)` is true exactly when a preset is applied and
`currentFPS < (1000 / frameBudget) * 0.8` for that preset, the quotient and the product being
those of double arithmetic, and the call leaves the adapter as it was. With the Low preset
applied the threshold is `25`, and the answer is true for `10` and `20` and false for `30`
and `60`. With a frame budget of `0` the quotient is `Infinity` and the answer is true; with a
frame budget of `30` the threshold is the double `26.66666666666667`. -/
theorem C16_shouldDowngrade (a : PerformanceAdapter) (currentFPS : ℚ) :
    ((a.shouldDowngrade currentFPS).1 = true ↔
      ∃ p, a._currentPreset = some p ∧
        JSNumber.lessThan currentFPS
          ((JSNumber.div 1000 p.frameBudget).mul (binary64 (8 / 10))) = true) ∧
    (a.shouldDowngrade currentFPS).2 = a ∧
    (a._currentPreset = QUALITY_PRESETS QUALITY_PRESET_MAPPING.low →
      (∃ p, a._currentPreset = some p ∧ p.frameBudget = 32 ∧
        (JSNumber.div 1000 p.frameBudget).mul (binary64 (8 / 10)) = JSNumber.finite 25) ∧
      ((a.shouldDowngrade currentFPS).1 = true ↔ currentFPS < 25) ∧
      (a.shouldDowngrade 10).1 = true ∧ (a.shouldDowngrade 20).1 = true ∧
      (a.shouldDowngrade 30).1 = false ∧ (a.shouldDowngrade 60).1 = false) ∧
    (∀ p, a._currentPreset = some p → p.frameBudget = 0 →
      (a.shouldDowngrade currentFPS).1 = true) ∧
    (∀ p, a._currentPreset = some p → p.frameBudget = 30 →
      ((a.shouldDowngrade currentFPS).1 = true ↔
        currentFPS < 1876499844737707 / 70368744177664)) := by
  refine ⟨?_, ?_, fun hlow => ?_, fun p hp h0 => ?_, fun p hp h30 => ?_⟩
  · cases hp : a._currentPreset with
    | none => simp [PerformanceAdapter.shouldDowngrade, hp]
    | some p => simp [shouldDowngrade_of_preset a p currentFPS hp]
  · unfold PerformanceAdapter.shouldDowngrade
    cases hp : a._currentPreset with
    | none => rfl
    | some p => rfl
  · have hp : a._currentPreset = some presetBajo := hlow
    have ht := shouldDowngrade_thresholds.2.2.1
    have hiff : ∀ x : ℚ, (a.shouldDowngrade x).1 = true ↔ x < 25 := by
      intro x
      rw [shouldDowngrade_of_preset a presetBajo x hp, ht, lessThan_finite]
    refine ⟨⟨presetBajo, hp, rfl, ht⟩, hiff currentFPS, (hiff 10).mpr (by norm_num),
      (hiff 20).mpr (by norm_num), ?_, ?_⟩
    · exact Bool.eq_false_iff.mpr fun h => absurd ((hiff 30).mp h) (by norm_num)
    · exact Bool.eq_false_iff.mpr fun h => absurd ((hiff 60).mp h) (by norm_num)
  · rw [shouldDowngrade_of_preset a p _ hp, h0]
    have hc : (0 : ℚ) < binary64 (8 / 10) := by rw [binary64_eight_tenths]; norm_num
    have hne : binary64 (8 / 10) ≠ 0 := ne_of_gt hc
    simp [JSNumber.div, JSNumber.mul, JSNumber.lessThan, hc, hne]
  · have ht : (JSNumber.div 1000 (30 : ℚ)).mul (binary64 (8 / 10)) =
        JSNumber.finite (1876499844737707 / 70368744177664) := by decide!
    rw [shouldDowngrade_of_preset a p _ hp, h30, ht, lessThan_finite]

/-- Witness of C16: an adapter with the Low preset applied, asked about `20` FPS. -/
theorem C16_shouldDowngrade_witness :
    (PerformanceAdapter.shouldDowngrade
      { _currentPreset := QUALITY_PRESETS "bajo", _originalConfig := none,
        _debugLogging := false, _performanceConfig := none } 20).1 = true ∧
    (PerformanceAdapter.shouldDowngrade
      { _currentPreset := some { presetBajo with frameBudget := 0 }, _originalConfig := none,
        _debugLogging := false, _performanceConfig := none } 20).1 = true ∧
    (PerformanceAdapter.shouldDowngrade
      { _currentPreset := some { presetBajo with frameBudget := 30 }, _originalConfig := none,
        _debugLogging := false, _performanceConfig := none }
      (7505999378950827 / 281474976710656)).1 = true :=
  ⟨((C16_shouldDowngrade
      { _currentPreset := QUALITY_PRESETS "bajo", _originalConfig := none,
        _debugLogging := false, _performanceConfig := none } 20).2.2.1 rfl).2.2.2.1,
   (C16_shouldDowngrade
      { _currentPreset := some { presetBajo with frameBudget := 0 }, _originalConfig := none,
        _debugLogging := false, _performanceConfig := none } 20).2.2.2.1 _ rfl rfl,
   ((C16_shouldDowngrade
      { _currentPreset := some { presetBajo with frameBudget := 30 }, _originalConfig := none,
        _debugLogging := false, _performanceConfig := none }
      (7505999378950827 / 281474976710656)).2.2.2.2 _ rfl rfl).mpr (by norm_num)⟩

/-- C17 (counterexample): a preset with the non-zero `trailLength` of `49`. Its
`trailFadeRate` is the double nearest to `1 / 49`, which is not `1 / 49`; the product
`trailFadeRate * trailLength` is `0.9999999999999999` in double arithmetic, and is not `1` in
exact arithmetic either. -/
theorem C17_trail_fade_product_counterexample :
    ({ presetAlto with trailLength := 49 } : QualityPreset).trailLength ≠ 0 ∧
    (translatePresetToConfig { presetAlto with trailLength := 49 }).trailFadeRate =
      JSNumber.finite (5882252574524729 / 288230376151711744) ∧
    (5882252574524729 / 288230376151711744 : ℚ) ≠ 1 / 49 ∧
    (translatePresetToConfig { presetAlto with trailLength := 49 }).trailFadeRate.mul
        ({ presetAlto with trailLength := 49 } : QualityPreset).trailLength =
      JSNumber.finite (9007199254740991 / 9007199254740992) ∧
    (translatePresetToConfig { presetAlto with trailLength := 49 }).trailFadeRate.mul
        ({ presetAlto with trailLength := 49 } : QualityPreset).trailLength ≠
      JSNumber.finite 1 ∧
    (5882252574524729 / 288230376151711744 : ℚ) *
      ({ presetAlto with trailLength := 49 } : QualityPreset).trailLength ≠ 1 := by
  refine ⟨?_, ?_, ?_, ?_, ?_, ?_⟩ <;> decide!

/-- C17 (amended): for a preset with a non-zero `trailLength`, `translatePresetToConfig`
copies `maxParticles`, `numJacobiSteps`, `numRenderSteps` and `velocityScaleFactor` unchanged
and sets `trailFadeRate` to the quotient `1 / trailLength` of double arithmetic, the double
nearest to the exact quotient; for the four presets of the table the product
`trailFadeRate * trailLength` is `1` in double arithmetic; the High preset gives
`100000, 3, 3, 8` and the double `1 / 18`, the Minimal preset `25000, 1, 1, 14` and the double
`1 / 10`. -/
theorem C17_translatePresetToConfig (preset : QualityPreset) (h : preset.trailLength ≠ 0) :
    (translatePresetToConfig preset).particleCount = preset.maxParticles ∧
    (translatePresetToConfig preset).jacobiIterations = preset.numJacobiSteps ∧
    (translatePresetToConfig preset).renderPasses = preset.numRenderSteps ∧
    (translatePresetToConfig preset).velocityScale = preset.velocityScaleFactor ∧
    (translatePresetToConfig preset).trailFadeRate =
      JSNumber.ofExact (1 / preset.trailLength) ∧
    (∀ id p, QUALITY_PRESETS id = some p →
      (translatePresetToConfig p).trailFadeRate.mul p.trailLength = JSNumber.finite 1) ∧
    (QUALITY_PRESETS QUALITY_PRESET_MAPPING.high).map translatePresetToConfig =
      some { particleCount := 100000, jacobiIterations := 3, renderPasses := 3,
             velocityScale := 8,
             trailFadeRate := JSNumber.finite (2001599834386887 / 36028797018963968) } ∧
    binary64 (1 / 18) = 2001599834386887 / 36028797018963968 ∧
    (QUALITY_PRESETS QUALITY_PRESET_MAPPING.minimal).map translatePresetToConfig =
      some { particleCount := 25000, jacobiIterations := 1, renderPasses := 1,
             velocityScale := 14,
             trailFadeRate := JSNumber.finite (3602879701896397 / 36028797018963968) } ∧
    binary64 (1 / 10) = 3602879701896397 / 36028797018963968 := by
  refine ⟨rfl, rfl, rfl, rfl, ?_, ?_, ?_, ?_, ?_, ?_⟩
  · simp only [translatePresetToConfig, JSNumber.div, if_neg h]
  · intro id p hp
    unfold QUALITY_PRESETS at hp
    split_ifs at hp
    · obtain rfl := Option.some.inj hp; decide!
    · obtain rfl := Option.some.inj hp; decide!
    · obtain rfl := Option.some.inj hp; decide!
    · obtain rfl := Option.some.inj hp; decide!
  · decide!
  · decide!
  · decide!
  · decide!

/-- Witness of C17: the Medium preset, whose `trailLength` is `14`. -/
theorem C17_translatePresetToConfig_witness :
    presetMedio.trailLength ≠ 0 ∧
    (translatePresetToConfig presetMedio).trailFadeRate =
      JSNumber.ofExact (1 / presetMedio.trailLength) ∧
    JSNumber.ofExact (1 / presetMedio.trailLength) =
      JSNumber.finite (2573485501354569 / 36028797018963968) :=
  ⟨by decide!,
   (C17_translatePresetToConfig presetMedio (by decide!)).2.2.2.2.1,
   by decide!⟩

/-- C18: every preset of the table has a particle density in `(0, 1]`, positive integer
`maxParticles`, `particleLifetime`, `numJacobiSteps`, `numRenderSteps` and `trailLength`,
and positive `velocityScaleFactor`, `maxVelocity`, `touchForceScale` and `frameBudget`; so
neither `1 / trailLength` nor `1000 / frameBudget` divides by zero on a table preset. -/
theorem C18_preset_ranges (id : QualityPresetId) (p : QualityPreset)
    (h : QUALITY_PRESETS id = some p) :
    (0 < p.particleDensity ∧ p.particleDensity ≤ 1) ∧
    isPositiveInteger p.maxParticles ∧ isPositiveInteger p.particleLifetime ∧
    isPositiveInteger p.numJacobiSteps ∧ isPositiveInteger p.numRenderSteps ∧
    isPositiveInteger p.trailLength ∧
    0 < p.velocityScaleFactor ∧ 0 < p.maxVelocity ∧ 0 < p.touchForceScale ∧
    0 < p.frameBudget ∧ p.trailLength ≠ 0 ∧ p.frameBudget ≠ 0 := by
  unfold QUALITY_PRESETS at h
  split_ifs at h
  · obtain rfl := Option.some.inj h
    refine ⟨⟨by norm_num [presetAlto], by norm_num [presetAlto]⟩,
      ⟨100000, by norm_num, by norm_num [presetAlto]⟩,
      ⟨1000, by norm_num, by norm_num [presetAlto]⟩,
      ⟨3, by norm_num, by norm_num [presetAlto]⟩,
      ⟨3, by norm_num, by norm_num [presetAlto]⟩,
      ⟨18, by norm_num, by norm_num [presetAlto]⟩,
      ?_, ?_, ?_, ?_, ?_, ?_⟩ <;>
    norm_num [presetAlto]
  · obtain rfl := Option.some.inj h
    refine ⟨⟨by norm_num [presetMedio], by norm_num [presetMedio]⟩,
      ⟨70000, by norm_num, by norm_num [presetMedio]⟩,
      ⟨900, by norm_num, by norm_num [presetMedio]⟩,
      ⟨3, by norm_num, by norm_num [presetMedio]⟩,
      ⟨2, by norm_num, by norm_num [presetMedio]⟩,
      ⟨14, by norm_num, by norm_num [presetMedio]⟩,
      ?_, ?_, ?_, ?_, ?_, ?_⟩ <;>
    norm_num [presetMedio]
  · obtain rfl := Option.some.inj h
    refine ⟨⟨by norm_num [presetBajo], by norm_num [presetBajo]⟩,
      ⟨45000, by norm_num, by norm_num [presetBajo]⟩,
      ⟨800, by norm_num, by norm_num [presetBajo]⟩,
      ⟨2, by norm_num, by norm_num [presetBajo]⟩,
      ⟨1, by norm_num, by norm_num [presetBajo]⟩,
      ⟨12, by norm_num, by norm_num [presetBajo]⟩,
      ?_, ?_, ?_, ?_, ?_, ?_⟩ <;>
    norm_num [presetBajo]
  · obtain rfl := Option.some.inj h
    refine ⟨⟨by norm_num [presetMinimo], by norm_num [presetMinimo]⟩,
      ⟨25000, by norm_num, by norm_num [presetMinimo]⟩,
      ⟨700, by norm_num, by norm_num [presetMinimo]⟩,
      ⟨1, by norm_num, by norm_num [presetMinimo]⟩,
      ⟨1, by norm_num, by norm_num [presetMinimo]⟩,
      ⟨10, by norm_num, by norm_num [presetMinimo]⟩,
      ?_, ?_, ?_, ?_, ?_, ?_⟩ <;>
    norm_num [presetMinimo]

/-- Witness of C18: the High preset. -/
theorem C18_preset_ranges_witness :
    isPositiveInteger presetAlto.trailLength ∧ presetAlto.frameBudget ≠ 0 :=
  ⟨(C18_preset_ranges "alto" presetAlto rfl).2.2.2.2.2.1,
   (C18_preset_ranges "alto" presetAlto rfl).2.2.2.2.2.2.2.2.2.2.2⟩

/-- C19: for the empty capabilities object and an environment that supplies no signals
(omitted, or present and empty) `detectQualityProfile` returns Low, hence Low or Medium; and
for every capabilities record, whichever fields are absent, and every environment, it
returns one of the four levels of the sequence. The function is total, so no call raises. -/
theorem C19_missing_capabilities (capabilities : DeviceCapabilities)
    (env : Option BrowserEnvironment) (globalThis : BrowserEnvironment) :
    detectQualityProfile emptyCapabilities none emptyEnvironment =
      QUALITY_PRESET_MAPPING.low ∧
    detectQualityProfile emptyCapabilities (some emptyEnvironment) emptyEnvironment =
      QUALITY_PRESET_MAPPING.low ∧
    (detectQualityProfile emptyCapabilities none emptyEnvironment =
        QUALITY_PRESET_MAPPING.low ∨
      detectQualityProfile emptyCapabilities none emptyEnvironment =
        QUALITY_PRESET_MAPPING.medium) ∧
    detectQualityProfile capabilities env globalThis ∈ QUALITY_SEQUENCE := by
  have h1 : detectQualityProfile emptyCapabilities none emptyEnvironment = "bajo" := by
    norm_num [detectQualityProfile, detectQualityProfile.reducedMotion,
      detectQualityProfile.dataSaver, detectQualityProfile.deviceMemory,
      detectQualityProfile.cores, detectQualityProfile.pixelRatio,
      detectQualityProfile.screenWidth, detectQualityProfile.screenHeight,
      detectQualityProfile.navigator, detectQualityProfile.connection,
      detectQualityProfile.score, prefersReducedMotion, truthy, orNumber, emptyCapabilities,
      emptyEnvironment]
  have h2 : detectQualityProfile emptyCapabilities (some emptyEnvironment) emptyEnvironment =
      "bajo" := by
    norm_num [detectQualityProfile, detectQualityProfile.reducedMotion,
      detectQualityProfile.dataSaver, detectQualityProfile.deviceMemory,
      detectQualityProfile.cores, detectQualityProfile.pixelRatio,
      detectQualityProfile.screenWidth, detectQualityProfile.screenHeight,
      detectQualityProfile.navigator, detectQualityProfile.connection,
      detectQualityProfile.score, prefersReducedMotion, truthy, orNumber, emptyCapabilities,
      emptyEnvironment]
  refine ⟨h1, h2, Or.inl h1, ?_⟩
  unfold detectQualityProfile
  dsimp only
  split_ifs <;> decide

/-- C20: for a capabilities record that specifies `prefersReducedMotion`, `saveData`,
`deviceMemory`, `hardwareConcurrency`, `devicePixelRatio`, `screenWidth` and `screenHeight`,
the result of `detectQualityProfile` is the same in every two environments, injected or
ambient. -/
theorem C20_environment_only_for_omitted (capabilities : DeviceCapabilities)
    (env1 env2 : Option BrowserEnvironment) (globalThis1 globalThis2 : BrowserEnvironment)
    (hmotion : capabilities.prefersReducedMotion.isSome = true)
    (hsave : capabilities.saveData.isSome = true)
    (hmem : capabilities.deviceMemory.isSome = true)
    (hcores : capabilities.hardwareConcurrency.isSome = true)
    (hratio : capabilities.devicePixelRatio.isSome = true)
    (hwidth : capabilities.screenWidth.isSome = true)
    (hheight : capabilities.screenHeight.isSome = true) :
    detectQualityProfile capabilities env1 globalThis1 =
      detectQualityProfile capabilities env2 globalThis2 := by
  obtain ⟨w, m, c, r, sw, sh, prm, sd⟩ := capabilities
  simp only at hmotion hsave hmem hcores hratio hwidth hheight
  obtain ⟨m, rfl⟩ := Option.isSome_iff_exists.mp hmem
  obtain ⟨c, rfl⟩ := Option.isSome_iff_exists.mp hcores
  obtain ⟨r, rfl⟩ := Option.isSome_iff_exists.mp hratio
  obtain ⟨sw, rfl⟩ := Option.isSome_iff_exists.mp hwidth
  obtain ⟨sh, rfl⟩ := Option.isSome_iff_exists.mp hheight
  obtain ⟨prm, rfl⟩ := Option.isSome_iff_exists.mp hmotion
  obtain ⟨sd, rfl⟩ := Option.isSome_iff_exists.mp hsave
  rfl

/-- Witness of C20: an explicit `prefersReducedMotion = false` with high-end signals gives
the same level without an environment and in one that reports reduced motion and the data
saver. -/
theorem C20_environment_only_for_omitted_witness :
    detectQualityProfile
        { highEndCapabilities with prefersReducedMotion := some false, saveData := some false }
        none emptyEnvironment =
      detectQualityProfile
        { highEndCapabilities with prefersReducedMotion := some false, saveData := some false }
        (some thriftyEnvironment) thriftyEnvironment :=
  C20_environment_only_for_omitted
    { highEndCapabilities with prefersReducedMotion := some false, saveData := some false }
    none (some thriftyEnvironment) emptyEnvironment thriftyEnvironment
    rfl rfl rfl rfl rfl rfl rfl

/-- The score accumulated by the source is the sum of the contributions of its signals. -/
theorem score_eq_contributions (w : Option Bool) (m c r a : ℚ) :
    detectQualityProfile.score w m c r a =
      otherContribution w r a + memoryContribution m + coresContribution c := by
  cases hw : truthy w <;>
    by_cases h8 : m ≥ 8 <;> by_cases h4 : m ≥ 4 <;> (try (exfalso; linarith)) <;>
    by_cases h2 : m ≤ 2 <;> (try (exfalso; linarith)) <;>
    by_cases hne : m = 0 <;> (try (exfalso; linarith)) <;>
    by_cases c8 : c ≥ 8 <;> by_cases c4 : c ≥ 4 <;> (try (exfalso; linarith)) <;>
    by_cases hr : r > 5 / 2 <;> by_cases ha : a > 2500000 <;>
    simp only [detectQualityProfile.score, otherContribution, memoryContribution,
      coresContribution, hw, h8, h4, h2, hne, c8, c4, hr, ha,
      if_true, if_false, ite_self, Bool.false_eq_true, ne_eq, not_true_eq_false,
      not_false_eq_true, and_self, and_false, false_and, and_true, true_and] <;>
    rfl

/-- Bounds of the contributions to the score. -/
theorem contribution_bounds (w : Option Bool) (m c r a : ℚ) :
    -4 ≤ otherContribution w r a ∧ otherContribution w r a ≤ 1 ∧
    (truthy w = true → -1 ≤ otherContribution w r a) ∧
    (truthy w = false → otherContribution w r a ≤ -2) ∧
    (8 ≤ m → memoryContribution m = 2) ∧ (m < 4 → memoryContribution m ≤ -1) ∧
    (4 ≤ c → 1 ≤ coresContribution c) ∧ coresContribution c ≤ 2 := by
  unfold otherContribution memoryContribution coresContribution
  refine ⟨?_, ?_, ?_, ?_, ?_, ?_, ?_, ?_⟩
  · split_ifs <;> omega
  · split_ifs <;> omega
  · intro h; rw [h]; simp only [if_true]; split_ifs <;> omega
  · intro h; rw [h]; simp only [Bool.false_eq_true, if_false]; split_ifs <;> omega
  · intro h
    have h1 : m ≥ 8 := h
    have h2 : ¬ (m ≠ 0 ∧ m ≤ 2) := fun hh => by linarith [hh.2]
    simp [h1, h2]
  · intro h
    have h1 : ¬ m ≥ 8 := by intro hh; linarith
    have h2 : ¬ m ≥ 4 := by intro hh; linarith
    simp only [h1, h2, if_false]
    split_ifs <;> omega
  · intro h
    have h1 : c ≥ 4 := h
    simp only [h1, if_true]
    split_ifs <;> omega
  · split_ifs <;> omega

/-- C21: with no override in effect, WebGL2 supported, a device memory of at least `8` and at
least `4` cores, `detectQualityProfile` returns High whatever the pixel ratio and the screen
size are; the capabilities of the three tests score `5`, `4` and `3`. -/
theorem C21_high_end_returns_high (capabilities : DeviceCapabilities)
    (env : Option BrowserEnvironment) (globalThis : BrowserEnvironment)
    (hmotion : detectQualityProfile.reducedMotion capabilities env globalThis = false)
    (hsave : detectQualityProfile.dataSaver capabilities env globalThis = false)
    (hwebgl : capabilities.supportsWebGL2 = some true)
    (hmem : 8 ≤ detectQualityProfile.deviceMemory capabilities env globalThis)
    (hcores : 4 ≤ detectQualityProfile.cores capabilities env globalThis) :
    detectQualityProfile capabilities env globalThis = QUALITY_PRESET_MAPPING.high ∧
    detectQualityProfile.score (some true) 16 8 1 (1920 * 1080) = 5 ∧
    detectQualityProfile.score (some true) 8 4 1 (1920 * 1080) = 4 ∧
    detectQualityProfile.score (some true) 8 4 3 (1920 * 1080) = 3 := by
  refine ⟨?_, ?_, ?_, ?_⟩
  · unfold detectQualityProfile
    simp only [hmotion, hsave, Bool.false_eq_true, if_false]
    rw [score_eq_contributions, hwebgl]
    obtain ⟨-, -, ho, -, hm, -, hc, -⟩ := contribution_bounds (some true)
      (detectQualityProfile.deviceMemory capabilities env globalThis)
      (detectQualityProfile.cores capabilities env globalThis)
      (detectQualityProfile.pixelRatio capabilities env)
      (detectQualityProfile.screenWidth capabilities env *
        detectQualityProfile.screenHeight capabilities env)
    have ho := ho rfl
    have hm := hm hmem
    have hc := hc hcores
    rw [if_neg (by omega), if_neg (by omega)]
    rfl
  · rw [score_eq_contributions]
    norm_num [otherContribution, memoryContribution, coresContribution, truthy]
  · rw [score_eq_contributions]
    norm_num [otherContribution, memoryContribution, coresContribution, truthy]
  · rw [score_eq_contributions]
    norm_num [otherContribution, memoryContribution, coresContribution, truthy]

/-- Witness of C21: the high-end capabilities of the test suite, with no environment. -/
theorem C21_high_end_returns_high_witness :
    detectQualityProfile highEndCapabilities none emptyEnvironment =
      QUALITY_PRESET_MAPPING.high :=
  (C21_high_end_returns_high highEndCapabilities none emptyEnvironment (by decide) (by decide)
    rfl
    (by norm_num [detectQualityProfile.deviceMemory, highEndCapabilities, emptyCapabilities])
    (by norm_num [detectQualityProfile.cores, highEndCapabilities, emptyCapabilities])).1

/-- C22: with reduced motion not in effect, WebGL2 not supported and a device memory below
`4` (or unknown, which counts as `0`), `detectQualityProfile` returns Low whatever the core
count, the pixel ratio and the screen size are; the capabilities of the two tests score
`-5`. -/
theorem C22_low_end_returns_low (capabilities : DeviceCapabilities)
    (env : Option BrowserEnvironment) (globalThis : BrowserEnvironment)
    (hmotion : detectQualityProfile.reducedMotion capabilities env globalThis = false)
    (hwebgl : truthy capabilities.supportsWebGL2 = false)
    (hmem : detectQualityProfile.deviceMemory capabilities env globalThis < 4) :
    detectQualityProfile capabilities env globalThis = QUALITY_PRESET_MAPPING.low ∧
    detectQualityProfile.score (some false) 2 2 1 (1366 * 768) = -5 ∧
    detectQualityProfile.score (some false) 1 1 1 (1024 * 768) = -5 := by
  refine ⟨?_, ?_, ?_⟩
  · unfold detectQualityProfile
    simp only [hmotion, Bool.false_eq_true, if_false]
    by_cases hsave : detectQualityProfile.dataSaver capabilities env globalThis = true
    · rw [if_pos hsave]; rfl
    · rw [if_neg hsave]
      rw [score_eq_contributions]
      obtain ⟨-, -, -, ho, -, hm, -, hc⟩ := contribution_bounds capabilities.supportsWebGL2
        (detectQualityProfile.deviceMemory capabilities env globalThis)
        (detectQualityProfile.cores capabilities env globalThis)
        (detectQualityProfile.pixelRatio capabilities env)
        (detectQualityProfile.screenWidth capabilities env *
          detectQualityProfile.screenHeight capabilities env)
      have ho := ho hwebgl
      have hm := hm hmem
      rw [if_pos (by omega)]
      rfl
  · rw [score_eq_contributions]
    norm_num [otherContribution, memoryContribution, coresContribution, truthy]
  · rw [score_eq_contributions]
    norm_num [otherContribution, memoryContribution, coresContribution, truthy]

/-- Witness of C22: the empty capabilities object, whose memory is unknown. -/
theorem C22_low_end_returns_low_witness :
    detectQualityProfile emptyCapabilities none emptyEnvironment =
      QUALITY_PRESET_MAPPING.low :=
  (C22_low_end_returns_low emptyCapabilities none emptyEnvironment (by decide) rfl
    (by norm_num [detectQualityProfile.deviceMemory, detectQualityProfile.navigator,
      emptyCapabilities, emptyEnvironment, orNumber])).1

/-- A higher score never gives a level further down the quality sequence. -/
theorem levelOfScore_antitone (s1 s2 : Int) (h : s1 ≤ s2) :
    levelIndex (levelOfScore s2) ≤ levelIndex (levelOfScore s1) := by
  have i1 : levelIndex "alto" = 0 := by decide
  have i2 : levelIndex "medio" = 1 := by decide
  have i3 : levelIndex "bajo" = 2 := by decide
  unfold levelOfScore
  split_ifs <;> simp only [i1, i2, i3] <;> omega

/-- The contribution of the cores does not decrease with the core count. -/
theorem coresContribution_mono (c1 c2 : ℚ) (h : c1 ≤ c2) :
    coresContribution c1 ≤ coresContribution c2 := by
  unfold coresContribution
  split_ifs <;> first
    | omega
    | (exfalso; linarith)

/-- The contribution of a known memory does not decrease with the memory. -/
theorem memoryContribution_mono (m1 m2 : ℚ) (h0 : 0 < m1) (h : m1 ≤ m2) :
    memoryContribution m1 ≤ memoryContribution m2 := by
  have e1 : (m1 ≠ 0 ∧ m1 ≤ 2) ↔ m1 ≤ 2 := ⟨fun hh => hh.2, fun hh => ⟨ne_of_gt h0, hh⟩⟩
  have e2 : (m2 ≠ 0 ∧ m2 ≤ 2) ↔ m2 ≤ 2 :=
    ⟨fun hh => hh.2, fun hh => ⟨ne_of_gt (lt_of_lt_of_le h0 h), hh⟩⟩
  unfold memoryContribution
  simp only [e1, e2]
  split_ifs <;> first
    | omega
    | (exfalso; linarith)

/-- Result of `detectQualityProfile` in terms of the two overrides and the contributions. -/
theorem detectQualityProfile_eq (capabilities : DeviceCapabilities)
    (env : Option BrowserEnvironment) (globalThis : BrowserEnvironment) :
    detectQualityProfile capabilities env globalThis =
      if detectQualityProfile.reducedMotion capabilities env globalThis then "minimo"
      else if detectQualityProfile.dataSaver capabilities env globalThis then "bajo"
      else levelOfScore
        (otherContribution capabilities.supportsWebGL2
            (detectQualityProfile.pixelRatio capabilities env)
            (detectQualityProfile.screenWidth capabilities env *
              detectQualityProfile.screenHeight capabilities env)
          + memoryContribution (detectQualityProfile.deviceMemory capabilities env globalThis)
          + coresContribution (detectQualityProfile.cores capabilities env globalThis)) := by
  unfold detectQualityProfile levelOfScore
  simp only [score_eq_contributions]

/-- C28: all other fields and the environment held fixed, `detectQualityProfile` is monotone
in the hardware signals: for core counts `c1 ≤ c2` the level for `c2` is not further down the
quality sequence than the level for `c1`, and likewise for known memories `0 < m1 ≤ m2`.
This holds with or without an override in effect. -/
theorem C28_monotone_in_hardware (capabilities : DeviceCapabilities)
    (env : Option BrowserEnvironment) (globalThis : BrowserEnvironment) (c1 c2 m1 m2 : ℚ)
    (hc : c1 ≤ c2) (hm0 : 0 < m1) (hm : m1 ≤ m2) :
    levelIndex (detectQualityProfile
        { capabilities with hardwareConcurrency := some c2 } env globalThis) ≤
      levelIndex (detectQualityProfile
        { capabilities with hardwareConcurrency := some c1 } env globalThis) ∧
    levelIndex (detectQualityProfile
        { capabilities with deviceMemory := some m2 } env globalThis) ≤
      levelIndex (detectQualityProfile
        { capabilities with deviceMemory := some m1 } env globalThis) := by
  have hcores : ∀ x : ℚ,
      detectQualityProfile { capabilities with hardwareConcurrency := some x } env globalThis =
        if detectQualityProfile.reducedMotion capabilities env globalThis then "minimo"
        else if detectQualityProfile.dataSaver capabilities env globalThis then "bajo"
        else levelOfScore
          (otherContribution capabilities.supportsWebGL2
              (detectQualityProfile.pixelRatio capabilities env)
              (detectQualityProfile.screenWidth capabilities env *
                detectQualityProfile.screenHeight capabilities env)
            + memoryContribution
                (detectQualityProfile.deviceMemory capabilities env globalThis)
            + coresContribution x) := fun x => by
    rw [detectQualityProfile_eq]; rfl
  have hmemory : ∀ x : ℚ,
      detectQualityProfile { capabilities with deviceMemory := some x } env globalThis =
        if detectQualityProfile.reducedMotion capabilities env globalThis then "minimo"
        else if detectQualityProfile.dataSaver capabilities env globalThis then "bajo"
        else levelOfScore
          (otherContribution capabilities.supportsWebGL2
              (detectQualityProfile.pixelRatio capabilities env)
              (detectQualityProfile.screenWidth capabilities env *
                detectQualityProfile.screenHeight capabilities env)
            + memoryContribution x
            + coresContribution (detectQualityProfile.cores capabilities env globalThis)) :=
    fun x => by rw [detectQualityProfile_eq]; rfl
  constructor
  · rw [hcores c1, hcores c2]
    split_ifs
    · exact le_refl _
    · exact le_refl _
    · exact levelOfScore_antitone _ _ (by linarith [coresContribution_mono c1 c2 hc])
  · rw [hmemory m1, hmemory m2]
    split_ifs
    · exact le_refl _
    · exact le_refl _
    · exact levelOfScore_antitone _ _ (by linarith [memoryContribution_mono m1 m2 hm0 hm])

/-- Witness of C28: two against eight cores and two against sixteen gigabytes, the other
signals being those of the high-end test. -/
theorem C28_monotone_in_hardware_witness :
    levelIndex (detectQualityProfile
        { highEndCapabilities with hardwareConcurrency := some 8 } none emptyEnvironment) ≤
      levelIndex (detectQualityProfile
        { highEndCapabilities with hardwareConcurrency := some 2 } none emptyEnvironment) ∧
    levelIndex (detectQualityProfile
        { highEndCapabilities with deviceMemory := some 16 } none emptyEnvironment) ≤
      levelIndex (detectQualityProfile
        { highEndCapabilities with deviceMemory := some 2 } none emptyEnvironment) :=
  C28_monotone_in_hardware highEndCapabilities none emptyEnvironment 2 8 2 16
    (by norm_num) (by norm_num) (by norm_num)

/-- A neighbour returned by `getNextQualityId` is a level of the sequence, and so is the
identifier it was asked for. -/
theorem getNextQualityId_mem (x y : QualityPresetId) (direction : Option Direction)
    (h : getNextQualityId x direction = some y) :
    x ∈ QUALITY_SEQUENCE ∧ y ∈ QUALITY_SEQUENCE := by
  have hx : x ∈ QUALITY_SEQUENCE := by
    by_contra hx
    rw [getNextQualityId_of_not_mem x direction hx] at h
    exact absurd h (by simp)
  refine ⟨hx, ?_⟩
  have hall : ∀ a ∈ QUALITY_SEQUENCE, ∀ d : Option Direction, ∀ b,
      getNextQualityId a d = some b → b ∈ QUALITY_SEQUENCE := by
    intro a ha d b hb
    simp only [QUALITY_SEQUENCE, List.mem_cons, List.mem_singleton, List.not_mem_nil,
      or_false] at ha
    have e1 : getNextQualityId "alto" (some Direction.down) = some "medio" := by decide
    have e2 : getNextQualityId "medio" (some Direction.down) = some "bajo" := by decide
    have e3 : getNextQualityId "bajo" (some Direction.down) = some "minimo" := by decide
    have e4 : getNextQualityId "minimo" (some Direction.down) = none := by decide
    have e5 : getNextQualityId "alto" (some Direction.up) = none := by decide
    have e6 : getNextQualityId "medio" (some Direction.up) = some "alto" := by decide
    have e7 : getNextQualityId "bajo" (some Direction.up) = some "medio" := by decide
    have e8 : getNextQualityId "minimo" (some Direction.up) = some "bajo" := by decide
    have e9 : getNextQualityId "alto" none = some "medio" := by decide
    have e10 : getNextQualityId "medio" none = some "bajo" := by decide
    have e11 : getNextQualityId "bajo" none = some "minimo" := by decide
    have e12 : getNextQualityId "minimo" none = none := by decide
    rcases ha with rfl | rfl | rfl | rfl <;> rcases d with _ | _ | _ <;>
      simp only [e1, e2, e3, e4, e5, e6, e7, e8, e9, e10, e11, e12, Option.some.injEq,
        reduceCtorEq] at hb <;>
      subst hb <;> decide
  exact hall x hx direction y h

/-- C29: the two directions of `getNextQualityId` are mutually inverse: for all identifiers
`a` and `b`, and so for all levels, going down from `a` gives `b` exactly when going up from
`b` gives `a`. -/
theorem C29_directions_inverse (a b : QualityPresetId) :
    getNextQualityId a (some Direction.down) = some b ↔
      getNextQualityId b (some Direction.up) = some a := by
  by_cases ha : a ∈ QUALITY_SEQUENCE
  · by_cases hb : b ∈ QUALITY_SEQUENCE
    · simp only [QUALITY_SEQUENCE, List.mem_cons, List.mem_singleton, List.not_mem_nil,
        or_false] at ha hb
      rcases ha with rfl | rfl | rfl | rfl <;> rcases hb with rfl | rfl | rfl | rfl <;> decide
    · constructor
      · intro h
        exact absurd (getNextQualityId_mem a b _ h).2 hb
      · intro h
        exact absurd (getNextQualityId_mem b a _ h).1 hb
  · constructor
    · intro h
      exact absurd (getNextQualityId_mem a b _ h).1 ha
    · intro h
      exact absurd (getNextQualityId_mem b a _ h).2 ha

/-- C30: for levels A before B in the quality sequence and every `currentFPS`, if
`shouldDowngrade(currentFPS)` is true with the preset of B applied, it is true with the preset
of A applied. -/
theorem C30_threshold_relaxes (i j : Fin 4) (hij : i < j) (a b : PerformanceAdapter)
    (currentFPS : ℚ)
    (ha : a._currentPreset = QUALITY_PRESETS (QUALITY_SEQUENCE.getD i.val ""))
    (hb : b._currentPreset = QUALITY_PRESETS (QUALITY_SEQUENCE.getD j.val ""))
    (h : (b.shouldDowngrade currentFPS).1 = true) :
    (a.shouldDowngrade currentFPS).1 = true := by
  have p1 : QUALITY_PRESETS (QUALITY_SEQUENCE.getD 0 "") = some presetAlto := rfl
  have p2 : QUALITY_PRESETS (QUALITY_SEQUENCE.getD 1 "") = some presetMedio := rfl
  have p3 : QUALITY_PRESETS (QUALITY_SEQUENCE.getD 2 "") = some presetBajo := rfl
  have p4 : QUALITY_PRESETS (QUALITY_SEQUENCE.getD 3 "") = some presetMinimo := rfl
  obtain ⟨t1, t2, t3, t4⟩ := shouldDowngrade_thresholds
  fin_cases i <;> fin_cases j <;> first
    | exact absurd hij (by decide)
    | (simp only [Fin.val_zero, Fin.val_one, Fin.val_two, Fin.zero_eta, Fin.mk_one,
         Fin.reduceFinMk, p1, p2, p3, p4] at ha hb
       rw [shouldDowngrade_of_preset b _ _ hb] at h
       rw [shouldDowngrade_of_preset a _ _ ha]
       first | rw [t2] at h | rw [t3] at h | rw [t4] at h
       first | rw [t1] | rw [t2] | rw [t3]
       rw [lessThan_finite] at h ⊢
       linarith)

/-- Witness of C30: `20` FPS is below the threshold `25` of Low, hence below that of High. -/
theorem C30_threshold_relaxes_witness :
    (PerformanceAdapter.shouldDowngrade
      { _currentPreset := QUALITY_PRESETS "alto", _originalConfig := none,
        _debugLogging := false, _performanceConfig := none } 20).1 = true :=
  C30_threshold_relaxes 0 2 (by decide)
    { _currentPreset := QUALITY_PRESETS "alto", _originalConfig := none,
      _debugLogging := false, _performanceConfig := none }
    { _currentPreset := QUALITY_PRESETS "bajo", _originalConfig := none,
      _debugLogging := false, _performanceConfig := none }
    20 rfl rfl
    (by rw [shouldDowngrade_of_preset _ presetBajo _ rfl, shouldDowngrade_thresholds.2.2.1,
          lessThan_finite]
        norm_num)

/-- One evaluation at position `i` returns a state at position `nextIndex fps i`, with the
same smoothed FPS, and the same state when the position does not change. -/
theorem checkPerformanceAndAdjust_atIndex (s : ControllerState) (i : ℕ) (h : AtIndex s i) :
    ∃ s', checkPerformanceAndAdjust s = some s' ∧ AtIndex s' (nextIndex s.fps i) ∧
      s'.fps = s.fps ∧ (nextIndex s.fps i = i → s' = s) := by
  obtain ⟨auto, q, p, fc, lt, fps, hist, log⟩ := s
  obtain ⟨hauto, hwarm, hi, hpreset⟩ := h
  simp only at hauto hwarm hi hpreset
  subst hauto hpreset
  have d1 : getNextQualityId "alto" (some Direction.down) = some "medio" := by decide
  have d2 : getNextQualityId "medio" (some Direction.down) = some "bajo" := by decide
  have d3 : getNextQualityId "bajo" (some Direction.down) = some "minimo" := by decide
  have d4 : getNextQualityId "minimo" (some Direction.down) = none := by decide
  have u1 : getNextQualityId "alto" (some Direction.up) = none := by decide
  have u2 : getNextQualityId "medio" (some Direction.up) = some "alto" := by decide
  have u3 : getNextQualityId "bajo" (some Direction.up) = some "medio" := by decide
  have u4 : getNextQualityId "minimo" (some Direction.up) = some "bajo" := by decide
  have hlt : i < 4 := by
    by_contra hge
    have : QUALITY_SEQUENCE[i]? = none := List.getElem?_eq_none (by simp [QUALITY_SEQUENCE]; omega)
    rw [this] at hi
    exact absurd hi (by simp)
  interval_cases i
  · have hq : q = "alto" := by simpa [QUALITY_SEQUENCE] using hi.symm
    subst hq
    have hc := checkPerformanceAndAdjust_eq
      ⟨true, "alto", QUALITY_PRESETS "alto", fc, lt, fps, hist, log⟩ presetAlto rfl hwarm
      (by simp [QUALITY_SEQUENCE]) rfl
    refine ⟨_, hc, ?_⟩
    have hx : ¬ (fps < checkPerformanceAndAdjust.targetFPS presetAlto - 5 ∧
        fps > checkPerformanceAndAdjust.targetFPS presetAlto + 10) :=
      fun h => absurd (lt_trans h.1 (lt_of_le_of_lt (by linarith) h.2)) (lt_irrefl _)
    have ht : checkPerformanceAndAdjust.targetFPS presetAlto = frameBudgetAt 0 := rfl
    rw [ht] at hx ⊢
    by_cases h1 : fps < frameBudgetAt 0 - 5
    · have h2 : ¬ fps > frameBudgetAt 0 + 10 := fun h2 => hx ⟨h1, h2⟩
      simp [AtIndex, nextIndex, switchedTo, QUALITY_SEQUENCE, QUALITY_PRESETS, hwarm, h1, h2,
        d1, d2, d3, d4, u1, u2, u3, u4]
    · by_cases h2 : fps > frameBudgetAt 0 + 10 <;>
        simp [AtIndex, nextIndex, switchedTo, QUALITY_SEQUENCE, QUALITY_PRESETS, hwarm, h1, h2,
          d1, d2, d3, d4, u1, u2, u3, u4]
  · have hq : q = "medio" := by simpa [QUALITY_SEQUENCE] using hi.symm
    subst hq
    have hc := checkPerformanceAndAdjust_eq
      ⟨true, "medio", QUALITY_PRESETS "medio", fc, lt, fps, hist, log⟩ presetMedio rfl hwarm
      (by simp [QUALITY_SEQUENCE]) rfl
    refine ⟨_, hc, ?_⟩
    have hx : ¬ (fps < checkPerformanceAndAdjust.targetFPS presetMedio - 5 ∧
        fps > checkPerformanceAndAdjust.targetFPS presetMedio + 10) :=
      fun h => absurd (lt_trans h.1 (lt_of_le_of_lt (by linarith) h.2)) (lt_irrefl _)
    have ht : checkPerformanceAndAdjust.targetFPS presetMedio = frameBudgetAt 1 := rfl
    rw [ht] at hx ⊢
    by_cases h1 : fps < frameBudgetAt 1 - 5
    · have h2 : ¬ fps > frameBudgetAt 1 + 10 := fun h2 => hx ⟨h1, h2⟩
      simp [AtIndex, nextIndex, switchedTo, QUALITY_SEQUENCE, QUALITY_PRESETS, hwarm, h1, h2,
        d1, d2, d3, d4, u1, u2, u3, u4]
    · by_cases h2 : fps > frameBudgetAt 1 + 10 <;>
        simp [AtIndex, nextIndex, switchedTo, QUALITY_SEQUENCE, QUALITY_PRESETS, hwarm, h1, h2,
          d1, d2, d3, d4, u1, u2, u3, u4]
  · have hq : q = "bajo" := by simpa [QUALITY_SEQUENCE] using hi.symm
    subst hq
    have hc := checkPerformanceAndAdjust_eq
      ⟨true, "bajo", QUALITY_PRESETS "bajo", fc, lt, fps, hist, log⟩ presetBajo rfl hwarm
      (by simp [QUALITY_SEQUENCE]) rfl
    refine ⟨_, hc, ?_⟩
    have hx : ¬ (fps < checkPerformanceAndAdjust.targetFPS presetBajo - 5 ∧
        fps > checkPerformanceAndAdjust.targetFPS presetBajo + 10) :=
      fun h => absurd (lt_trans h.1 (lt_of_le_of_lt (by linarith) h.2)) (lt_irrefl _)
    have ht : checkPerformanceAndAdjust.targetFPS presetBajo = frameBudgetAt 2 := rfl
    rw [ht] at hx ⊢
    by_cases h1 : fps < frameBudgetAt 2 - 5
    · have h2 : ¬ fps > frameBudgetAt 2 + 10 := fun h2 => hx ⟨h1, h2⟩
      simp [AtIndex, nextIndex, switchedTo, QUALITY_SEQUENCE, QUALITY_PRESETS, hwarm, h1, h2,
        d1, d2, d3, d4, u1, u2, u3, u4]
    · by_cases h2 : fps > frameBudgetAt 2 + 10 <;>
        simp [AtIndex, nextIndex, switchedTo, QUALITY_SEQUENCE, QUALITY_PRESETS, hwarm, h1, h2,
          d1, d2, d3, d4, u1, u2, u3, u4]
  · have hq : q = "minimo" := by simpa [QUALITY_SEQUENCE] using hi.symm
    subst hq
    have hc := checkPerformanceAndAdjust_eq
      ⟨true, "minimo", QUALITY_PRESETS "minimo", fc, lt, fps, hist, log⟩ presetMinimo rfl hwarm
      (by simp [QUALITY_SEQUENCE]) rfl
    refine ⟨_, hc, ?_⟩
    have hx : ¬ (fps < checkPerformanceAndAdjust.targetFPS presetMinimo - 5 ∧
        fps > checkPerformanceAndAdjust.targetFPS presetMinimo + 10) :=
      fun h => absurd (lt_trans h.1 (lt_of_le_of_lt (by linarith) h.2)) (lt_irrefl _)
    have ht : checkPerformanceAndAdjust.targetFPS presetMinimo = frameBudgetAt 3 := rfl
    rw [ht] at hx ⊢
    by_cases h1 : fps < frameBudgetAt 3 - 5
    · have h2 : ¬ fps > frameBudgetAt 3 + 10 := fun h2 => hx ⟨h1, h2⟩
      simp [AtIndex, nextIndex, switchedTo, QUALITY_SEQUENCE, QUALITY_PRESETS, hwarm, h1, h2,
        d1, d2, d3, d4, u1, u2, u3, u4]
    · by_cases h2 : fps > frameBudgetAt 3 + 10 <;>
        simp [AtIndex, nextIndex, switchedTo, QUALITY_SEQUENCE, QUALITY_PRESETS, hwarm, h1, h2,
          d1, d2, d3, d4, u1, u2, u3, u4]

/-- From any position, three steps of `nextIndex` at a constant FPS reach a fixed position,
moving only down the sequence or only up. -/
theorem nextIndex_settles (fps : ℚ) (i : ℕ) (hi : i < 4) :
    nextIndex fps (nextIndex fps (nextIndex fps (nextIndex fps i))) =
      nextIndex fps (nextIndex fps (nextIndex fps i)) ∧
    ((i ≤ nextIndex fps i ∧ nextIndex fps i ≤ nextIndex fps (nextIndex fps i) ∧
        nextIndex fps (nextIndex fps i) ≤ nextIndex fps (nextIndex fps (nextIndex fps i))) ∨
      (nextIndex fps i ≤ i ∧ nextIndex fps (nextIndex fps i) ≤ nextIndex fps i ∧
        nextIndex fps (nextIndex fps (nextIndex fps i)) ≤ nextIndex fps (nextIndex fps i))) := by
  by_cases h17 : fps < 17 <;> by_cases h23 : fps < 23 <;> (try (exfalso; linarith)) <;>
    by_cases h27 : fps < 27 <;> (try (exfalso; linarith)) <;>
    by_cases h31 : fps < 31 <;> (try (exfalso; linarith)) <;>
    by_cases g32 : 32 < fps <;> (try (exfalso; linarith)) <;>
    by_cases g38 : 38 < fps <;> (try (exfalso; linarith)) <;>
    by_cases g42 : 42 < fps <;> (try (exfalso; linarith)) <;>
    by_cases g46 : 46 < fps <;> (try (exfalso; linarith)) <;>
    interval_cases i <;>
    norm_num [nextIndex, frameBudgetAt, h17, h23, h27, h31, g32, g38, g42, g46]

/-- The level at position `i` of the quality sequence has index `i`. -/
theorem levelIndex_of_getElem (i : ℕ) (q : QualityPresetId)
    (h : QUALITY_SEQUENCE[i]? = some q) : levelIndex q = (i : Int) := by
  have hlt : i < 4 := by
    by_contra hge
    have : QUALITY_SEQUENCE[i]? = none := List.getElem?_eq_none (by simp [QUALITY_SEQUENCE]; omega)
    rw [this] at h
    exact absurd h (by simp)
  interval_cases i <;>
    (obtain rfl : _ = q := by simpa [QUALITY_SEQUENCE] using h) <;> decide

/-- After `n` evaluations from position `i` the controller is at the position reached by `n`
steps of `nextIndex`, with the same smoothed FPS. -/
theorem evaluateN_atIndex (s : ControllerState) (i : ℕ) (h : AtIndex s i) (n : ℕ) :
    ∃ t, evaluateN n s = some t ∧ AtIndex t ((nextIndex s.fps)^[n] i) ∧ t.fps = s.fps := by
  induction n with
  | zero => exact ⟨s, rfl, h, rfl⟩
  | succ n ih =>
    obtain ⟨t, ht, hat, hfps⟩ := ih
    obtain ⟨t', hstep, hat', hfps', -⟩ := checkPerformanceAndAdjust_atIndex t _ hat
    refine ⟨t', ?_, ?_, hfps'.trans hfps⟩
    · simp only [evaluateN, ht, Option.some_bind]
      exact hstep
    · rw [Function.iterate_succ_apply']
      rw [hfps] at hat'
      exact hat'

/-- C27: warmed up, with auto-tuning on, from every level of the sequence and at every
constant smoothed FPS, repeated evaluations all return; the positions of the levels they
produce only increase or only decrease along the quality sequence; and the state reached
after three evaluations is one that a further evaluation leaves unchanged, so that every
later state equals it. -/
theorem C27_no_oscillation (s : ControllerState) (hauto : s.autoTuning = true)
    (hwarm : FPS_HISTORY_LENGTH ≤ s.fpsHistory.length)
    (hlevel : s.currentQuality ∈ QUALITY_SEQUENCE)
    (hpreset : s.currentPreset = QUALITY_PRESETS s.currentQuality) :
    ∃ traj : ℕ → ControllerState, traj 0 = s ∧
      (∀ n, evaluateN n s = some (traj n)) ∧ (∀ n, (traj n).fps = s.fps) ∧
      ((∀ n, levelIndex (traj n).currentQuality ≤ levelIndex (traj (n + 1)).currentQuality) ∨
        (∀ n, levelIndex (traj (n + 1)).currentQuality ≤
          levelIndex (traj n).currentQuality)) ∧
      checkPerformanceAndAdjust (traj 3) = some (traj 3) ∧
      (∀ n, 3 ≤ n → traj n = traj 3) := by
  obtain ⟨i, hi⟩ := List.mem_iff_getElem?.mp hlevel
  have hAt : AtIndex s i := ⟨hauto, hwarm, hi, hpreset⟩
  have hlt : i < 4 := by
    by_contra hge
    have : QUALITY_SEQUENCE[i]? = none := List.getElem?_eq_none (by simp [QUALITY_SEQUENCE]; omega)
    rw [this] at hi
    exact absurd hi (by simp)
  have hT : ∀ n, evaluateN n s = some ((evaluateN n s).getD s) ∧
      AtIndex ((evaluateN n s).getD s) ((nextIndex s.fps)^[n] i) ∧
      ((evaluateN n s).getD s).fps = s.fps := by
    intro n
    obtain ⟨t, ht, hat, hfps⟩ := evaluateN_atIndex s i hAt n
    rw [ht]
    exact ⟨rfl, hat, hfps⟩
  obtain ⟨hfix, hdir⟩ := nextIndex_settles s.fps i hlt
  have hiter : ∀ n, 3 ≤ n → (nextIndex s.fps)^[n] i = (nextIndex s.fps)^[3] i := by
    intro n hn
    induction n, hn using Nat.le_induction with
    | base => rfl
    | succ n _ ih =>
      rw [Function.iterate_succ_apply', ih]
      exact hfix
  have hidx : ∀ n, levelIndex ((evaluateN n s).getD s).currentQuality =
      (((nextIndex s.fps)^[n] i : ℕ) : Int) :=
    fun n => levelIndex_of_getElem _ _ (hT n).2.1.2.2.1
  have hstay : checkPerformanceAndAdjust ((evaluateN 3 s).getD s) =
      some ((evaluateN 3 s).getD s) := by
    obtain ⟨t', hstep, -, -, hsame⟩ :=
      checkPerformanceAndAdjust_atIndex _ _ (hT 3).2.1
    rw [hstep, hsame (by rw [(hT 3).2.2]; exact hfix)]
  have hlater : ∀ n, 3 ≤ n → (evaluateN n s).getD s = (evaluateN 3 s).getD s := by
    intro n hn
    induction n, hn using Nat.le_induction with
    | base => rfl
    | succ n _ ih =>
      have h1 : evaluateN (n + 1) s = checkPerformanceAndAdjust ((evaluateN n s).getD s) := by
        simp only [evaluateN]
        rw [(hT n).1]
        simp
      rw [h1, ih, hstay]
      rfl
  refine ⟨fun n => (evaluateN n s).getD s, rfl, fun n => (hT n).1, fun n => (hT n).2.2, ?_,
    hstay, hlater⟩
  have hmono : ∀ n, (3 ≤ n → (nextIndex s.fps)^[n + 1] i = (nextIndex s.fps)^[n] i) :=
    fun n hn => by rw [hiter (n + 1) (by omega), hiter n hn]
  rcases hdir with ⟨h0, h1, h2⟩ | ⟨h0, h1, h2⟩
  · left
    intro n
    show levelIndex ((evaluateN n s).getD s).currentQuality ≤
      levelIndex ((evaluateN (n + 1) s).getD s).currentQuality
    rw [hidx n, hidx (n + 1)]
    rcases Nat.lt_or_ge n 3 with hn | hn
    · interval_cases n <;> exact_mod_cast (by assumption)
    · rw [hmono n hn]
  · right
    intro n
    show levelIndex ((evaluateN (n + 1) s).getD s).currentQuality ≤
      levelIndex ((evaluateN n s).getD s).currentQuality
    rw [hidx n, hidx (n + 1)]
    rcases Nat.lt_or_ge n 3 with hn | hn
    · interval_cases n <;> exact_mod_cast (by assumption)
    · rw [hmono n hn]

/-- Witness of C27: warmed up at High with a smoothed FPS of `10`. -/
theorem C27_no_oscillation_witness :
    ∃ traj : ℕ → ControllerState, traj 0 = warmState "alto" (QUALITY_PRESETS "alto") 10 ∧
      (∀ n, evaluateN n (warmState "alto" (QUALITY_PRESETS "alto") 10) = some (traj n)) ∧
      checkPerformanceAndAdjust (traj 3) = some (traj 3) := by
  obtain ⟨traj, h0, h1, -, -, h3, -⟩ :=
    C27_no_oscillation (warmState "alto" (QUALITY_PRESETS "alto") 10) rfl
      (by simp [warmState]) (by decide) rfl
  exact ⟨traj, h0, h1, h3⟩

/-- C25 (the code evaluated): the identifiers of the module are the Spanish names. The
sequence is `alto, medio, bajo, minimo` and not `high, medium, low, minimal`; the table has
an entry under each Spanish name and none under an English one; the mapping sends `high` to
`alto`, and so on, and not each English name to itself; and `getNextQualityId('high')`, which
the tests expect to be `'medium'`, is `null`. -/
theorem C25_identifiers_are_spanish :
    QUALITY_SEQUENCE = ["alto", "medio", "bajo", "minimo"] ∧
    QUALITY_SEQUENCE ≠ ["high", "medium", "low", "minimal"] ∧
    (∀ id, (QUALITY_PRESETS id).isSome = true ↔ id ∈ ["alto", "medio", "bajo", "minimo"]) ∧
    QUALITY_PRESETS "high" = none ∧ QUALITY_PRESETS "medium" = none ∧
    QUALITY_PRESETS "low" = none ∧ QUALITY_PRESETS "minimal" = none ∧
    QUALITY_PRESET_MAPPING =
      { high := "alto", medium := "medio", low := "bajo", minimal := "minimo" } ∧
    QUALITY_PRESET_MAPPING ≠
      { high := "high", medium := "medium", low := "low", minimal := "minimal" } ∧
    getNextQualityId "high" none = none := by
  refine ⟨rfl, by decide, ?_, by decide, by decide, by decide, by decide, rfl, by decide,
    by decide⟩
  intro id
  unfold QUALITY_PRESETS
  simp only [List.mem_cons, List.mem_singleton, List.not_mem_nil, or_false]
  split_ifs <;> simp [*]

/-- Every result of `detectQualityProfile` is a level of the quality sequence. -/
theorem detectQualityProfile_mem (capabilities : DeviceCapabilities)
    (env : Option BrowserEnvironment) (globalThis : BrowserEnvironment) :
    detectQualityProfile capabilities env globalThis ∈ QUALITY_SEQUENCE := by
  unfold detectQualityProfile
  dsimp only
  split_ifs <;> decide

/-- C23 (counterexample): `'constructor'` is not a key of the preset table, yet with
`profileId: 'constructor'` the handle's `currentProfile` is `'constructor'` and not the level
that `detectQualityProfile` gives for the capabilities. -/
theorem C23_inherited_name_counterexample :
    QUALITY_PRESETS "constructor" = none ∧
    ∃ c, createFluidBackground { isWebGL2Supported := none }
        { profileId := some "constructor", onRequestDowngrade := false,
          deviceCapabilities := some highEndCapabilities }
        emptyEnvironment { mediaQuery := ListenerSupport.unsupported, connection := false } =
        some c ∧
      c.handle.currentProfile = "constructor" ∧
      c.handle.currentProfile ≠ detectQualityProfile highEndCapabilities none emptyEnvironment := by
  refine ⟨by decide, _, rfl, rfl, ?_⟩
  intro h
  have hmem := detectQualityProfile_mem highEndCapabilities none emptyEnvironment
  rw [← h] at hmem
  exact absurd hmem (by decide)

/-- C23 (amended): `createFluidBackground` returns unless `window.matchMedia` raises, and on
the handle it returns: for a `profileId` that is a key of the preset table, `currentProfile`
is that `profileId`, whatever the device capabilities are; when `profileId` is absent, or
names no property of the table object, own or inherited, `currentProfile` is the result of
`detectQualityProfile` on the capabilities. -/
theorem C23_profile_selection (gpuioAPI : GpuioAPI) (options : AutoProfileOptions)
    (globalThis : BrowserEnvironment) (listeners : ListenerEnvironment) :
    ((globalThis.window.bind fun w => w.matchMedia) ≠ some MatchMediaOutcome.throws →
      ∃ c, createFluidBackground gpuioAPI options globalThis listeners = some c) ∧
    (∀ c, createFluidBackground gpuioAPI options globalThis listeners = some c →
      (∀ p, options.profileId = some p → (QUALITY_PRESETS p).isSome = true →
        c.handle.currentProfile = p) ∧
      ((options.profileId = none ∨
          ∃ p, options.profileId = some p ∧ QUALITY_PRESETS p = none ∧
            p ∉ objectPrototypeProperties) →
        c.handle.currentProfile =
          detectQualityProfile
            (options.deviceCapabilities.getD
              { emptyCapabilities with
                supportsWebGL2 := some (gpuioAPI.isWebGL2Supported.getD true) })
            none globalThis)) := by
  constructor
  · intro hq
    unfold createFluidBackground
    simp only [hq, if_false]
    exact ⟨_, rfl⟩
  · intro c hc
    unfold createFluidBackground at hc
    by_cases hq : (globalThis.window.bind fun w => w.matchMedia) =
        some MatchMediaOutcome.throws
    · simp only [hq, if_true] at hc
      exact absurd hc (by simp)
    · simp only [hq, if_false] at hc
      obtain rfl := Option.some.inj hc
      constructor
      · intro p hp hkey
        obtain ⟨preset, hpreset⟩ := Option.isSome_iff_exists.mp hkey
        simp [createFluidBackground.selectedProfileId, hp, QUALITY_PRESETS.access, hpreset,
          TableValue.isTruthy]
      · rintro (hnone | ⟨p, hp, hkey, hproto⟩)
        · simp [createFluidBackground.selectedProfileId, createFluidBackground.capabilities,
            hnone]
        · simp [createFluidBackground.selectedProfileId, createFluidBackground.capabilities,
            hp, QUALITY_PRESETS.access, hkey, hproto, TableValue.isTruthy]

/-- Witness of C23: `profileId: 'bajo'` with capabilities that prefer reduced motion. -/
theorem C23_profile_selection_witness :
    ∀ c, createFluidBackground { isWebGL2Supported := none }
        { profileId := some "bajo", onRequestDowngrade := false,
          deviceCapabilities := some { highEndCapabilities with prefersReducedMotion := some true } }
        emptyEnvironment { mediaQuery := ListenerSupport.unsupported, connection := false } =
        some c → c.handle.currentProfile = "bajo" :=
  fun c hc =>
    ((C23_profile_selection { isWebGL2Supported := none }
      { profileId := some "bajo", onRequestDowngrade := false,
        deviceCapabilities := some { highEndCapabilities with prefersReducedMotion := some true } }
      emptyEnvironment { mediaQuery := ListenerSupport.unsupported, connection := false }).2
      c hc).1 "bajo" rfl rfl

/-- C24: on the handle that `createFluidBackground` returns, the first `dispose()` carries out
the removal of every listener registered at creation, each exactly once and in the order of
registration; the handle it leaves has no callbacks, so that a further `dispose()` removes
nothing and leaves the handle as it is. -/
theorem C24_dispose_idempotent (gpuioAPI : GpuioAPI) (options : AutoProfileOptions)
    (globalThis : BrowserEnvironment) (listeners : ListenerEnvironment)
    (c : FluidBackgroundCreation)
    (hc : createFluidBackground gpuioAPI options globalThis listeners = some c) :
    c.handle.dispose.1 = c.subscribed ∧ c.subscribed.Nodup ∧
    c.handle.dispose.2.dispose.1 = [] ∧
    c.handle.dispose.2.dispose.2 = c.handle.dispose.2 ∧
    c.handle.dispose.2.currentProfile = c.handle.currentProfile := by
  unfold createFluidBackground at hc
  by_cases hq : (globalThis.window.bind fun w => w.matchMedia) =
      some MatchMediaOutcome.throws
  · simp only [hq, if_true] at hc
    exact absurd hc (by simp)
  · simp only [hq, if_false] at hc
    obtain rfl := Option.some.inj hc
    refine ⟨rfl, ?_, rfl, rfl, rfl⟩
    simp only [createFluidBackground.mediaSubscriptions,
      createFluidBackground.connectionSubscriptions]
    cases (globalThis.window.bind fun w => w.matchMedia) <;>
      cases detectQualityProfile.connection none globalThis <;>
      cases listeners.mediaQuery <;> cases listeners.connection <;> simp

/-- Witness of C24: an environment with a media query and a connection, both accepting
`addEventListener`. -/
theorem C24_dispose_idempotent_witness :
    ∃ c, createFluidBackground { isWebGL2Supported := none }
        { profileId := none, onRequestDowngrade := true, deviceCapabilities := none }
        thriftyEnvironment
        { mediaQuery := ListenerSupport.addEventListener, connection := true } = some c ∧
      c.handle.dispose.1 =
        [Subscription.mediaQueryEventListener, Subscription.connectionEventListener] ∧
      c.handle.dispose.2.dispose.1 = [] :=
  ⟨_, rfl,
    (C24_dispose_idempotent { isWebGL2Supported := none }
      { profileId := none, onRequestDowngrade := true, deviceCapabilities := none }
      thriftyEnvironment
      { mediaQuery := ListenerSupport.addEventListener, connection := true } _ rfl).1,
    (C24_dispose_idempotent { isWebGL2Supported := none }
      { profileId := none, onRequestDowngrade := true, deviceCapabilities := none }
      thriftyEnvironment
      { mediaQuery := ListenerSupport.addEventListener, connection := true } _ rfl).2.2.1⟩

/-- C26 (counterexample): `'constructor'` is not a key of the preset table, yet
`applyQualityPreset('constructor')` on a freshly constructed adapter does not leave it
unchanged: the adapter stores the inherited property as its current preset. -/
theorem C26_inherited_name_counterexample :
    QUALITY_PRESETS "constructor" = none ∧
    PerformanceAdapter.constructed.applyQualityPreset "constructor" =
      ApplyOutcome.foreignPreset "constructor" ∧
    PerformanceAdapter.constructed.applyQualityPreset "constructor" ≠
      ApplyOutcome.returned PerformanceAdapter.constructed := by
  refine ⟨by decide, rfl, ?_⟩
  intro h
  have h' : ApplyOutcome.foreignPreset "constructor" =
      ApplyOutcome.returned PerformanceAdapter.constructed := h
  exact ApplyOutcome.noConfusion h'

/-- C26 (amended): for every adapter state and identifier, if the identifier is a key of the
preset table, `applyQualityPreset` returns with `getCurrentPreset()` equal to that entry,
whose `id` is the identifier, and `getPerformanceConfig()` equal to its translation; if the
identifier names no property of the table object, own or inherited, the call returns and
leaves the adapter unchanged. -/
theorem C26_applyQualityPreset (a : PerformanceAdapter) (id : QualityPresetId) :
    (∀ p, QUALITY_PRESETS id = some p →
      ∃ a', a.applyQualityPreset id = ApplyOutcome.returned a' ∧
        a'.getCurrentPreset = some p ∧ p.id = id ∧
        a'.getPerformanceConfig = some (translatePresetToConfig p).toPerformanceConfig ∧
        a'._originalConfig = a._originalConfig ∧ a'._debugLogging = a._debugLogging) ∧
    (QUALITY_PRESETS id = none → id ∉ objectPrototypeProperties →
      a.applyQualityPreset id = ApplyOutcome.returned a) := by
  constructor
  · intro p hp
    refine ⟨{ a with _currentPreset := some p,
                     _performanceConfig := some (translatePresetToConfig p).toPerformanceConfig },
      ?_, rfl, ?_, rfl, rfl, rfl⟩
    · simp [PerformanceAdapter.applyQualityPreset, QUALITY_PRESETS.access, hp]
    · unfold QUALITY_PRESETS at hp
      split_ifs at hp with h1 h2 h3 h4
      · obtain rfl := Option.some.inj hp; exact h1.symm
      · obtain rfl := Option.some.inj hp; exact h2.symm
      · obtain rfl := Option.some.inj hp; exact h3.symm
      · obtain rfl := Option.some.inj hp; exact h4.symm
  · intro hnone hproto
    simp [PerformanceAdapter.applyQualityPreset, QUALITY_PRESETS.access, hnone, hproto]

/-- Witness of C26: `'bajo'` is applied to a fresh adapter; `'low'`, a name the table does not
have, leaves it unchanged. -/
theorem C26_applyQualityPreset_witness :
    (∃ a', PerformanceAdapter.constructed.applyQualityPreset "bajo" =
        ApplyOutcome.returned a' ∧ a'.getCurrentPreset = some presetBajo) ∧
    PerformanceAdapter.constructed.applyQualityPreset "low" =
      ApplyOutcome.returned PerformanceAdapter.constructed :=
  ⟨(fun ⟨a', h1, h2, _⟩ => ⟨a', h1, h2⟩)
      ((C26_applyQualityPreset PerformanceAdapter.constructed "bajo").1 presetBajo rfl),
    (C26_applyQualityPreset PerformanceAdapter.constructed "low").2 (by decide) (by decide)⟩

end AutoPerformance
